import Mathlib

/-!
# Verification of the xmi-schema-python model-loading core

Shallow embedding of the v2 model loader of the `xmi-schema-python`
repository (`src/xmi/v2/models/...`) and proofs about it.

Modelling conventions:
* Python floats are modelled as exact rationals (`ℚ`).  Python's `round`
  (round half to even) is modelled exactly by `pyRound`.  The concrete
  tolerances appearing in the claims (`1e-6`, `5e-7`, `1e-9`, `1e-10`) behave
  identically under IEEE-754 doubles and under `ℚ` for the computations
  involved (in particular `5e-7 / 1e-6` is exactly `0.5` in doubles).
* Python objects have reference identity; `uuid.uuid4()` draws a globally
  fresh token.  We model the uuid source as an injective generator
  `gen : ℕ → String` threaded through the state together with a counter, so
  that two separately constructed points carry distinct `id`s and reference
  equality of factory-returned points coincides with value equality.
* JSON-like raw values (the wire payload) are modelled by `RVal`; Python
  `dict`s are association lists with unique keys, `dict.get` is `getV`,
  truthiness is `pyTruthy`.
* Messages produced by the repository's own format strings are embedded
  verbatim; messages produced inside pydantic (`ValidationError` renderings)
  are abstracted to the token `"ValidationError"`, since no verified property
  depends on their text.
-/

set_option autoImplicit false

/- Batteries marks the `Rat` arithmetic operations `@[irreducible]`; concrete
runs of the embedded code are verified by `decide`, which needs them to
unfold. -/
attribute [local semireducible] Rat.mul Rat.inv Rat.add Rat.sub Rat.ofScientific

namespace XmiSpec

/-- Raw JSON-like Python values appearing in wire payloads. -/
inductive RVal where
  | str (s : String)
  | num (q : ℚ)
  | bool (b : Bool)
  | vnone
  | dict (fields : List (String × RVal))
  | list (items : List RVal)
  deriving Repr

/-- A Python dict with string keys, as an association list (first binding wins,
keys are unique in payloads produced from JSON). -/
abbrev Record := List (String × RVal)

/-- First binding for a key, `none` when the key is absent. -/
def getRaw (r : Record) (k : String) : Option RVal :=
  (r.find? (fun p => p.1 == k)).map (fun p => p.2)

/-- Python `d.get(k)`: `None` both when the key is absent and when it is bound
to `None`. -/
def getV (r : Record) (k : String) : RVal :=
  (getRaw r k).getD .vnone

/-- Python `k in d`. -/
def hasKey (r : Record) (k : String) : Bool :=
  (r.find? (fun p => p.1 == k)).isSome

/-- Python `d[k] = v`: replace the existing binding or append a new one. -/
def pySet : Record → String → RVal → Record
  | [], k, v => [(k, v)]
  | (k0, v0) :: rest, k, v =>
      if k0 == k then (k, v) :: rest else (k0, v0) :: pySet rest k v

/-- Python `d.pop(k, None)`: the removed value (if any) and the remaining dict. -/
def pyPop (r : Record) (k : String) : Option RVal × Record :=
  match getRaw r k with
  | none => (none, r)
  | some v => (some v, r.filter (fun p => p.1 != k))

/-- Python `v is None` on a raw value. -/
def RVal.isNoneV : RVal → Bool
  | .vnone => true
  | _ => false

/-- Python truthiness of a raw value. -/
def pyTruthy : RVal → Bool
  | .str s => !(s == "")
  | .num q => !(q == 0)
  | .bool b => b
  | .vnone => false
  | .dict fs => !fs.isEmpty
  | .list xs => !xs.isEmpty

/-- Python `round`: round to the nearest integer, ties to even.  Uses
`Rat.floor` directly so that concrete runs reduce in the kernel. -/
def pyRound (q : ℚ) : ℤ :=
  let f := Rat.floor q
  let frac := q - f
  if frac < 1/2 then f
  else if 1/2 < frac then f + 1
  else if f % 2 = 0 then f else f + 1

/-- Shallow `str(...)` rendering used when the loader interpolates a type tag
into an error message.  Only strings and `None` reach this function on
non-aborting paths, so the rendering of containers is irrelevant. -/
def pyStrV : RVal → String
  | .str s => s
  | .num q => toString q
  | .bool b => if b then "True" else "False"
  | .vnone => "None"
  | .dict _ => "<dict>"
  | .list _ => "<list>"

/-- ASCII lower-casing of one character (all strings this development
case-maps are ASCII). -/
def asciiLowerChar (c : Char) : Char :=
  if 'A' ≤ c ∧ c ≤ 'Z' then Char.ofNat (c.toNat + 32) else c

/-- ASCII upper-casing of one character. -/
def asciiUpperChar (c : Char) : Char :=
  if 'a' ≤ c ∧ c ≤ 'z' then Char.ofNat (c.toNat - 32) else c

/-- Python `s.lower()` (ASCII fragment). -/
def asciiLower (s : String) : String :=
  String.mk (s.toList.map asciiLowerChar)

/-- Python `s.upper()` (ASCII fragment). -/
def asciiUpper (s : String) : String :=
  String.mk (s.toList.map asciiUpperChar)

/-- Python `s.capitalize()` (ASCII fragment): first character upper-cased, the
rest lower-cased. -/
def pyCapitalize (s : String) : String :=
  match s.toList with
  | [] => ""
  | c :: cs => String.mk (asciiUpperChar c :: cs.map asciiLowerChar)

section PyFloat

/-- Digit run to a natural number (`none` when empty or non-digit). -/
def digitsVal (cs : List Char) : Option ℕ :=
  if cs.isEmpty then none
  else cs.foldlM (fun acc c =>
    if c.isDigit then some (acc * 10 + (c.toNat - 48)) else none) 0

/-- Mantissa of a Python float literal: `"12"`, `"12.5"`, `"12."`, `".5"`. -/
def parseMantissa (cs : List Char) : Option ℚ :=
  match cs.splitOn '.' with
  | [w] => (digitsVal w).map (fun n => (n : ℚ))
  | [w, f] =>
      if w.isEmpty && f.isEmpty then none
      else if !(w.all Char.isDigit) || !(f.all Char.isDigit) then none
      else
        let wn : ℕ := (digitsVal w).getD 0
        let fn : ℕ := (digitsVal f).getD 0
        some ((wn : ℚ) + (fn : ℚ) / (10 : ℚ) ^ f.length)
  | _ => none

/-- Optionally signed digit run. -/
def parseSignedNat (cs : List Char) : Option ℤ :=
  match cs with
  | '-' :: rest => (digitsVal rest).map (fun n => -(n : ℤ))
  | '+' :: rest => (digitsVal rest).map (fun n => (n : ℤ))
  | _ => (digitsVal cs).map (fun n => (n : ℤ))

/-- Python `float(s)` on decimal literals (optionally signed mantissa with an
optional exponent).  Non-finite spellings (`inf`, `nan`) and underscore
separators are outside the rational idealization and parse to `none`
(= raise). -/
def parsePyFloat (s : String) : Option ℚ :=
  let cs := s.trim.toList.map (fun c => if c == 'E' then 'e' else c)
  let (sign, body) : ℚ × List Char :=
    match cs with
    | '-' :: rest => (-1, rest)
    | '+' :: rest => (1, rest)
    | _ => (1, cs)
  match body.splitOn 'e' with
  | [m] => (parseMantissa m).map (fun q => sign * q)
  | [m, ex] => do
      let q ← parseMantissa m
      let e ← parseSignedNat ex
      pure (sign * q * (10 : ℚ) ^ e)
  | _ => none

/-- Python `float(v)` on a raw value: numbers pass through, strings are parsed,
anything else raises. -/
def pyFloat : RVal → Option ℚ
  | .num q => some q
  | .bool b => some (if b then 1 else 0)
  | .str s => parsePyFloat s
  | _ => none

end PyFloat

/-! ## Geometric value types

`XmiPoint3D` (src/xmi/v2/models/geometries/xmi_point_3d.py) inherits the base
entity fields (src/xmi/v2/models/bases/xmi_base_entity.py) and carries three
rational coordinates. -/

structure XmiPoint3D where
  id : String
  name : Option String
  ifcguid : Option String
  native_id : Option String
  description : Option String
  entity_type : Option String
  x : ℚ
  y : ℚ
  z : ℚ
  deriving Repr, DecidableEq

/-- `XmiPoint3D(x=x, y=y, z=z)`: `fill_defaults` draws a fresh uuid for `id`,
`name` defaults to that id, and `set_entity_type` stamps the class name. -/
def mkPoint (gid : String) (x y z : ℚ) : XmiPoint3D :=
  ⟨gid, some gid, none, none, none, some "XmiPoint3D", x, y, z⟩

/-- `XmiPoint3D.equals_within_tolerance` (default tolerance `1e-6`).  The
`isinstance` guard is discharged by typing. -/
def equalsWithinTolerance (p other : XmiPoint3D) (tolerance : ℚ := 1e-6) : Bool :=
  decide (|p.x - other.x| ≤ tolerance ∧ |p.y - other.y| ≤ tolerance ∧
    |p.z - other.z| ≤ tolerance)

/-! ## Coordinate deduplication cache (`XmiModel` private state) -/

/-- Cache key: quantized coordinates plus the tolerance itself. -/
abbrev PointKey := ℤ × ℤ × ℤ × ℚ

/-- Loader-global mutable state outside the entity/relationship/error lists:
the point cache and the uuid counter. -/
structure GSt where
  cache : List (PointKey × XmiPoint3D)
  next : ℕ
  deriving Repr, DecidableEq

/-- Draw a fresh uuid from the generator. -/
def drawUuid (gen : ℕ → String) (g : GSt) : String × GSt :=
  (gen g.next, { g with next := g.next + 1 })

/-- `XmiModel._quantize`. -/
def quantize (value tolerance : ℚ) : ℤ :=
  pyRound (value / tolerance)

/-- `XmiModel._point_cache_key`. -/
def pointCacheKey (x y z tolerance : ℚ) : PointKey :=
  (quantize x tolerance, quantize y tolerance, quantize z tolerance, tolerance)

/-- Lookup in the point cache (`dict.get`). -/
def cacheFind (c : List (PointKey × XmiPoint3D)) (k : PointKey) : Option XmiPoint3D :=
  (c.find? (fun e => decide (e.1 = k))).map (fun e => e.2)

/-- Store in the point cache (`dict` assignment). -/
def cacheSet : List (PointKey × XmiPoint3D) → PointKey → XmiPoint3D →
    List (PointKey × XmiPoint3D)
  | [], k, v => [(k, v)]
  | (k0, v0) :: rest, k, v =>
      if k0 = k then (k, v) :: rest else (k0, v0) :: cacheSet rest k v

/-- `XmiModel._point_tolerance` default. -/
def defaultPointTolerance : ℚ := 1e-10

/-- `XmiModel._register_point`. -/
def registerPoint (p : XmiPoint3D) (tolerance : Option ℚ) (g : GSt) : GSt :=
  let tol := tolerance.getD defaultPointTolerance
  { g with cache := cacheSet g.cache (pointCacheKey p.x p.y p.z tol) p }

/-- `XmiModel.create_point_3d`: look up the tolerance-quantized key; reuse the
cached point when it exists and is within tolerance of the request, otherwise
construct a fresh point and overwrite the bucket. -/
def createPoint3D (gen : ℕ → String) (x y z : ℚ) (tolerance : Option ℚ)
    (g : GSt) : XmiPoint3D × GSt :=
  let tol := tolerance.getD defaultPointTolerance
  let key := pointCacheKey x y z tol
  match cacheFind g.cache key with
  | some cached =>
      if |cached.x - x| ≤ tol ∧ |cached.y - y| ≤ tol ∧ |cached.z - z| ≤ tol then
        (cached, g)
      else
        let (gid, g1) := drawUuid gen g
        let cand := mkPoint gid x y z
        (cand, { g1 with cache := cacheSet g1.cache key cand })
  | none =>
      let (gid, g1) := drawUuid gen g
      let cand := mkPoint gid x y z
      (cand, { g1 with cache := cacheSet g1.cache key cand })

/-- Concrete injective uuid generator used for concrete runs (kernel-reducible:
draw `n` is `"uuid-"` followed by `n` copies of `Char.ofNat 120`). -/
def genU : ℕ → String := fun n => "uuid-" ++ String.mk (List.replicate n 'x')

/-! ## Base entity defaulting and field validation

`XmiBaseEntity` (src/xmi/v2/models/bases/xmi_base_entity.py): the `mode="before"`
validator `fill_defaults` and the pydantic extraction of the six base fields.
Pydantic's `populate_by_name=True` looks the wire alias up first and falls back
to the python field name. -/

/-- Field lookup with alias precedence (pydantic `populate_by_name`). -/
def aliasGet (r : Record) (al fname : String) : Option RVal :=
  match getRaw r al with
  | some v => some v
  | none => getRaw r fname

/-- Pydantic validation of a required `str` field. -/
def validateStr : Option RVal → Except Unit String
  | some (.str s) => .ok s
  | _ => .error ()

/-- Pydantic validation of an `Optional[str]` field (default `None`). -/
def validateOptStr : Option RVal → Except Unit (Option String)
  | none => .ok none
  | some .vnone => .ok none
  | some (.str s) => .ok (some s)
  | some _ => .error ()

/-- Pydantic lax validation of a `float` value: numbers pass, numeric strings
are coerced, everything else fails. -/
def validateFloatV : RVal → Except Unit ℚ
  | .num q => .ok q
  | .str s => match parsePyFloat s with
              | some q => .ok q
              | none => .error ()
  | _ => .error ()

/-- Pydantic validation of a required `float` field. -/
def validateFloat : Option RVal → Except Unit ℚ
  | some v => validateFloatV v
  | none => .error ()

/-- Pydantic validation of an `Optional[float]` field (default `None`). -/
def validateOptFloat : Option RVal → Except Unit (Option ℚ)
  | none => .ok none
  | some .vnone => .ok none
  | some v => (validateFloatV v).map some

/-- The value `fill_defaults` assigns to `id_`: first truthy of `"ID"`/`"id"`,
else the next generator draw (`str(uuid.uuid4())`, evaluated lazily by the
short-circuiting `or`). -/
def effectiveIdVal (gen : ℕ → String) (values : Record) (g : GSt) : RVal :=
  if pyTruthy (getV values "ID") then getV values "ID"
  else if pyTruthy (getV values "id") then getV values "id"
  else .str (gen g.next)

/-- The record rewriting performed by `XmiBaseEntity.fill_defaults`: default
the `"ID"`, `"Name"` and `"EntityType"` keys when both spellings are absent. -/
def fillDefaultsRec (clsName : String) (idv : RVal) (values : Record) : Record :=
  let v1 := if !hasKey values "ID" && !hasKey values "id" then
              pySet values "ID" idv else values
  let v2 := if !hasKey v1 "Name" && !hasKey v1 "name" then
              pySet v1 "Name" idv else v1
  if !hasKey v2 "EntityType" && !hasKey v2 "entity_type" then
    pySet v2 "EntityType" (.str clsName) else v2

/-- `XmiBaseEntity.fill_defaults`, with the uuid counter consumed exactly when
the short-circuiting `or` reaches `str(uuid.uuid4())`. -/
def fillDefaults (gen : ℕ → String) (clsName : String) (values : Record)
    (g : GSt) : Record × GSt :=
  let g1 := if pyTruthy (getV values "ID") || pyTruthy (getV values "id") then g
            else { g with next := g.next + 1 }
  (fillDefaultsRec clsName (effectiveIdVal gen values g) values, g1)

/-- The six base-entity fields shared by every concrete entity variant. -/
structure BaseFields where
  id : String
  name : Option String
  ifcguid : Option String
  native_id : Option String
  description : Option String
  entity_type : Option String
  deriving Repr, DecidableEq

/-- Pydantic extraction of the base fields from a processed record.  The
`default_factory` uuid draw on `id` can only fire when both `"ID"` and `"id"`
are absent, which `fill_defaults` rules out. -/
def extractBase (gen : ℕ → String) (r : Record) (g : GSt) :
    Except Unit BaseFields × GSt :=
  match aliasGet r "ID" "id" with
  | none =>
      let (u, g1) := drawUuid gen g
      (extractBaseRest u r, g1)
  | some v =>
      match validateStr (some v) with
      | .error e => (.error e, g)
      | .ok i => (extractBaseRest i r, g)
where
  /-- The remaining five base fields, given the validated id. -/
  extractBaseRest (i : String) (r : Record) : Except Unit BaseFields :=
    match validateOptStr (aliasGet r "Name" "name"),
          validateOptStr (aliasGet r "IFCGUID" "ifcguid"),
          validateOptStr (aliasGet r "NativeId" "native_id"),
          validateOptStr (aliasGet r "Description" "description"),
          validateOptStr (aliasGet r "EntityType" "entity_type") with
    | .ok n, .ok ifc, .ok nat, .ok d, .ok et => .ok ⟨i, n, ifc, nat, d, et⟩
    | _, _, _, _, _ => .error ()

/-- Base construction-from-map: `fill_defaults` followed by pydantic field
extraction, as performed for every concrete entity variant. -/
def constructBase (gen : ℕ → String) (clsName : String) (values : Record)
    (g : GSt) : Except Unit BaseFields × GSt :=
  let (v, g1) := fillDefaults gen clsName values g
  extractBase gen v g1

/-! ## Enumerations

`XmiBaseEnum` (src/xmi/v2/models/bases/xmi_base_enum.py) and
`XmiStructuralMaterialTypeEnum`
(src/xmi/v2/models/enums/xmi_structural_material_type_enum.py). -/

inductive XmiStructuralMaterialTypeEnum where
  | CONCRETE | STEEL | TIMBER | ALUMINIUM | COMPOSITE | MASONRY | OTHERS
  | REBAR | TENDON
  deriving Repr, DecidableEq

/-- The enum member values. -/
def XmiStructuralMaterialTypeEnum.value : XmiStructuralMaterialTypeEnum → String
  | .CONCRETE => "Concrete"
  | .STEEL => "Steel"
  | .TIMBER => "Timber"
  | .ALUMINIUM => "Aluminium"
  | .COMPOSITE => "Composite"
  | .MASONRY => "Masonry"
  | .OTHERS => "Others"
  | .REBAR => "Rebar"
  | .TENDON => "Tendon"

/-- Member iteration order of the enum. -/
def matEnumMembers : List XmiStructuralMaterialTypeEnum :=
  [.CONCRETE, .STEEL, .TIMBER, .ALUMINIUM, .COMPOSITE, .MASONRY, .OTHERS,
   .REBAR, .TENDON]

/-- `XmiBaseEnum.from_attribute_get_enum`: case-sensitive exact lookup over the
member values; raises `ValueError` naming the enum type and the offending
input when no member value matches.  (The `isinstance` pass-through cannot
occur for wire values.) -/
def fromAttributeGetEnum : RVal → Except String XmiStructuralMaterialTypeEnum
  | .str s =>
      match matEnumMembers.find? (fun m => m.value == s) with
      | some m => .ok m
      | none => .error ("Invalid XmiStructuralMaterialTypeEnum value: " ++ s)
  | v => .error ("Invalid XmiStructuralMaterialTypeEnum value: " ++ pyStrV v)

/-- `XmiBaseEnum._missing_`: the case-insensitive fallback lookup, invoked by
Python only when the enum class itself is called on a value. -/
def enumMissing (v : RVal) : Option XmiStructuralMaterialTypeEnum :=
  match v with
  | .str s => matEnumMembers.find? (fun m => asciiLower m.value == asciiLower s)
  | _ => none

/-! ## `XmiMaterial` (src/xmi/v2/models/entities/xmi_material.py) -/

structure XmiMaterial where
  base : BaseFields
  material_type : XmiStructuralMaterialTypeEnum
  grade : Option ℚ
  unit_weight : Option ℚ
  e_modulus : Option (ℚ × ℚ × ℚ)
  g_modulus : Option (ℚ × ℚ × ℚ)
  poisson_ratio : Option (ℚ × ℚ × ℚ)
  thermal_coefficient : Option ℚ
  deriving Repr, DecidableEq

/-- Value of an `EModulus`-style field after `from_dict` preprocessing: either
the untouched wire value or the tuple parsed from a `"(...)"` string. -/
inductive TupVal where
  | raw (v : RVal)
  | parsed (xs : List ℚ)
  deriving Repr

/-- Pydantic validation of an `Optional[Tuple[float, float, float]]` field. -/
def validateOptTuple3 : Option TupVal → Except Unit (Option (ℚ × ℚ × ℚ))
  | none => .ok none
  | some (.raw .vnone) => .ok none
  | some (.raw (.list xs)) =>
      match xs.mapM validateFloatV with
      | .ok [a, b, c] => .ok (some (a, b, c))
      | _ => .error ()
  | some (.raw _) => .error ()
  | some (.parsed [a, b, c]) => .ok (some (a, b, c))
  | some (.parsed _) => .error ()

/-- `(model field name, wire alias)` for every `XmiMaterial` pydantic field, in
declaration order. -/
def materialAliasPairs : List (String × String) :=
  [("id", "ID"), ("name", "Name"), ("ifcguid", "IFCGUID"),
   ("native_id", "NativeId"), ("description", "Description"),
   ("entity_type", "EntityType"),
   ("material_type", "MaterialType"), ("grade", "Grade"),
   ("unit_weight", "UnitWeight"), ("e_modulus", "EModulus"),
   ("g_modulus", "GModulus"), ("poisson_ratio", "PoissonRatio"),
   ("thermal_coefficient", "ThermalCoefficient")]

/-- The alias scan at the top of `XmiMaterial.from_dict`: for each model field
whose wire alias is bound in the input, bind the python field name to that
value. -/
def scanPairs (pairs : List (String × String)) (obj : Record) : Record :=
  pairs.filterMap (fun p => (getRaw obj p.2).map (fun v => (p.1, v)))

/-- `tuple(float(x.strip()) for x in s[1:-1].split(","))`. -/
def parseParenTuple (s : String) : Option (List ℚ) :=
  (((s.drop 1).dropRight 1).splitOn ",").mapM parsePyFloat

/-- The `from_dict` preprocessing of one tuple-ish field: strings shaped like
`"(...)"` are parsed; a parse failure logs an error and stores `None`. -/
def tupleFieldStep (processed : Record) (key : String) :
    Option TupVal × List String :=
  match getRaw processed key with
  | none => (none, [])
  | some v =>
      match v with
      | .str s =>
          if s.startsWith "(" && s.endsWith ")" then
            match parseParenTuple s with
            | some xs => (some (.parsed xs), [])
            | none =>
                (some (.raw .vnone),
                 ["Invalid tuple format in " ++ key ++ ": ValueError"])
          else (some (.raw v), [])
      | _ => (some (.raw v), [])

/-- `XmiMaterial.model_validate`: the subclass `set_entity_type` setdefault,
then `fill_defaults`, then pydantic field validation.  The record `processed`
carries the raw base-field bindings; the material-specific fields arrive
pre-processed. -/
def materialModelValidate (gen : ℕ → String) (processed : Record)
    (mt : Option XmiStructuralMaterialTypeEnum)
    (grade uw tc : Option RVal) (em gm pr : Option TupVal) (g : GSt) :
    Except Unit XmiMaterial × GSt :=
  let b0 := if hasKey processed "entity_type" then processed
            else pySet processed "entity_type" (.str "XmiStructuralMaterial")
  let fd := fillDefaults gen "XmiMaterial" b0 g
  let ext := extractBase gen fd.1 fd.2
  -- Pydantic collects errors across all fields before raising, so the
  -- ok/error outcome is order-independent; the uuid draws all happen in the
  -- `mode="before"` validators, which have already run at this point.
  match mt with
  | none => (.error (), ext.2)
  | some m =>
      match ext.1 with
      | .error _ => (.error (), ext.2)
      | .ok base =>
          match validateOptFloat grade, validateOptFloat uw,
                validateOptFloat tc, validateOptTuple3 em,
                validateOptTuple3 gm, validateOptTuple3 pr with
          | .ok grade2, .ok uw2, .ok tc2, .ok em2, .ok gm2, .ok pr2 =>
              (.ok ⟨base, m, grade2, uw2, em2, gm2, pr2, tc2⟩, ext.2)
          | _, _, _, _, _, _ => (.error (), ext.2)

/-- `XmiMaterial.from_dict`: alias scan, required-attribute check on
`material_type`, case-sensitive enum resolution via
`from_attribute_get_enum`, `"(...)"` tuple parsing, then `model_validate`. -/
def materialFromDict (gen : ℕ → String) (obj : Record) (g : GSt) :
    (Option XmiMaterial × List String) × GSt :=
  let processed := scanPairs materialAliasPairs obj
  if !hasKey processed "material_type" then
    ((none, ["Missing attribute: material_type"]), g)
  else
    let mt1 : Option XmiStructuralMaterialTypeEnum × List String :=
      match fromAttributeGetEnum (getV processed "material_type") with
      | .ok m => (some m, [])
      | .error e => (none, ["Invalid material_type: " ++ e])
    let em := tupleFieldStep processed "e_modulus"
    let gm := tupleFieldStep processed "g_modulus"
    let pr := tupleFieldStep processed "poisson_ratio"
    let errs := mt1.2 ++ em.2 ++ gm.2 ++ pr.2
    let mv := materialModelValidate gen processed mt1.1
      (getRaw processed "grade") (getRaw processed "unit_weight")
      (getRaw processed "thermal_coefficient") em.1 gm.1 pr.1 g
    match mv.1 with
    | .ok inst => ((some inst, errs), mv.2)
    | .error _ =>
        ((none,
          errs ++ ["Error instantiating XmiStructuralMaterial: ValidationError"]),
         mv.2)

/-! ## Point, storey and structural point connection constructors

`XmiPoint3D.from_dict` (src/xmi/v2/models/geometries/xmi_point_3d.py),
`XmiStorey` (src/xmi/v2/models/entities/xmi_storey.py) and
`XmiStructuralPointConnection.from_dict`
(src/xmi/v2/models/entities/structural_analytical/xmi_structural_point_connection.py). -/

/-- `XmiBaseGeometry.set_entity_type`:
`values["EntityType"] = values.get("EntityType") or values.get("entity_type")
or cls.__name__`. -/
def setEntityTypeGeometry (clsName : String) (values : Record) : Record :=
  pySet values "EntityType"
    (if pyTruthy (getV values "EntityType") then getV values "EntityType"
     else if pyTruthy (getV values "entity_type") then getV values "entity_type"
     else .str clsName)

/-- `XmiBaseStructuralAnalyticalEntity.set_structural_analytical_domain_type`:
stamps a `"Type"` key (no model field consumes it). -/
def setDomainType (values : Record) : Record :=
  if !hasKey values "Type" && !hasKey values "type" then
    pySet values "Type" (.str "StructuralAnalytical") else values

/-- Final step shared by the `from_dict` constructors: a successful
`model_validate` yields the instance with the accumulated errors, a failure
yields no instance and one more error. -/
def fromDictAssemble {α : Type} (errs : List String) (failMsg : String)
    (mv : Except Unit α × GSt) : (Option α × List String) × GSt :=
  match mv.1 with
  | .ok inst => ((some inst, errs), mv.2)
  | .error _ => ((none, errs ++ [failMsg]), mv.2)

/-- `XmiPoint3D.model_validate`. -/
def pointModelValidate (gen : ℕ → String) (r : Record) (g : GSt) :
    Except Unit XmiPoint3D × GSt :=
  let r1 := setEntityTypeGeometry "XmiPoint3D" r
  let fd := fillDefaults gen "XmiPoint3D" r1 g
  let ext := extractBase gen fd.1 fd.2
  match ext.1 with
  | .error _ => (.error (), ext.2)
  | .ok b =>
      match validateFloat (aliasGet fd.1 "X" "x"),
            validateFloat (aliasGet fd.1 "Y" "y"),
            validateFloat (aliasGet fd.1 "Z" "z") with
      | .ok x, .ok y, .ok z =>
          (.ok ⟨b.id, b.name, b.ifcguid, b.native_id, b.description,
            b.entity_type, x, y, z⟩, ext.2)
      | _, _, _ => (.error (), ext.2)

/-- The required-attribute pass: a missing attribute logs an error and binds
the key to `None`. -/
def requiredStep (present : String → Bool) (pr : Record × List String)
    (attr : String) : Record × List String :=
  if present attr then pr
  else (pySet pr.1 attr .vnone, pr.2 ++ ["Missing attribute: " ++ attr])

/-- `XmiPoint3D.from_dict`. -/
def pointFromDict (gen : ℕ → String) (obj : Record) (g : GSt) :
    (Option XmiPoint3D × List String) × GSt :=
  let p3 := [("X" : String), "Y", "Z"].foldl
    (requiredStep (fun attr => hasKey obj attr)) (obj, [])
  fromDictAssemble p3.2 "Error instantiating XmiPoint3D: ValidationError"
    (pointModelValidate gen p3.1 g)

structure XmiStorey where
  base : BaseFields
  storey_elevation : ℚ
  storey_mass : ℚ
  storey_horizontal_reaction_x : Option String
  storey_horizontal_reaction_y : Option String
  storey_vertical_reaction : Option String
  deriving Repr, DecidableEq

/-- `XmiStorey.model_validate` (`inject_entity_type`, domain stamp,
`fill_defaults`, field validation). -/
def storeyModelValidate (gen : ℕ → String) (r : Record) (g : GSt) :
    Except Unit XmiStorey × GSt :=
  let r1 := if hasKey r "entity_type" then r
            else pySet r "entity_type" (.str "XmiStorey")
  let r2 := setDomainType r1
  let fd := fillDefaults gen "XmiStorey" r2 g
  let ext := extractBase gen fd.1 fd.2
  match ext.1 with
  | .error _ => (.error (), ext.2)
  | .ok b =>
      match validateFloat (aliasGet fd.1 "StoreyElevation" "storey_elevation"),
            validateFloat (aliasGet fd.1 "StoreyMass" "storey_mass"),
            validateOptStr (aliasGet fd.1 "StoreyHorizontalReactionX"
              "storey_horizontal_reaction_x"),
            validateOptStr (aliasGet fd.1 "StoreyHorizontalReactionY"
              "storey_horizontal_reaction_y"),
            validateOptStr (aliasGet fd.1 "StoreyVerticalReaction"
              "storey_vertical_reaction") with
      | .ok e, .ok m, .ok rx, .ok ry, .ok rv => (.ok ⟨b, e, m, rx, ry, rv⟩, ext.2)
      | _, _, _, _, _ => (.error (), ext.2)

structure XmiStructuralPointConnection where
  base : BaseFields
  point : XmiPoint3D
  storey : Option XmiStorey
  deriving Repr, DecidableEq

/-- `XmiStructuralPointConnection.model_validate`: subclass `set_entity_type`
setdefault, domain stamp, `fill_defaults`, then field validation; the `point`
value arrives pre-processed (the `"point"`/`"Point"` keys were popped) and a
wire `"Storey"` dict is validated into an `XmiStorey`. -/
def spcModelValidate (gen : ℕ → String) (r : Record)
    (pointArg : Option XmiPoint3D) (g : GSt) :
    Except Unit XmiStructuralPointConnection × GSt :=
  let r1 := if hasKey r "entity_type" then r
            else pySet r "entity_type" (.str "XmiStructuralPointConnection")
  let r2 := setDomainType r1
  let fd := fillDefaults gen "XmiStructuralPointConnection" r2 g
  let ext := extractBase gen fd.1 fd.2
  match aliasGet fd.1 "Storey" "storey" with
  | some (.dict fs) =>
      let sv := storeyModelValidate gen fs ext.2
      match ext.1, pointArg, sv.1 with
      | .ok b, some p, .ok st => (.ok ⟨b, p, some st⟩, sv.2)
      | _, _, _ => (.error (), sv.2)
  | none =>
      match ext.1, pointArg with
      | .ok b, some p => (.ok ⟨b, p, none⟩, ext.2)
      | _, _ => (.error (), ext.2)
  | some .vnone =>
      match ext.1, pointArg with
      | .ok b, some p => (.ok ⟨b, p, none⟩, ext.2)
      | _, _ => (.error (), ext.2)
  | some _ => (.error (), ext.2)

/-- The `has_key` helper of `XmiStructuralPointConnection.from_dict`: the key
itself, lower-cased, upper-cased, or capitalized. -/
def hasKeyVariants (obj : Record) (key : String) : Bool :=
  hasKey obj key || hasKey obj (asciiLower key) || hasKey obj (asciiUpper key) ||
    hasKey obj (pyCapitalize key)

/-- `processed.pop("point", None)`, falling back to `processed.pop("Point",
None)` when the first pop yields `None`. -/
def spcPopPoint (processed : Record) : RVal × Record :=
  let pop1 := pyPop processed "point"
  match pop1.1 with
  | some .vnone =>
      let pop2 := pyPop pop1.2 "Point"
      ((pop2.1).getD .vnone, pop2.2)
  | some v => (v, pop1.2)
  | none =>
      let pop2 := pyPop pop1.2 "Point"
      ((pop2.1).getD .vnone, pop2.2)

/-- `get_coord`: the capitalized key, falling back to the lower-cased one when
the value is `None`. -/
def spcGetCoord (pd : List (String × RVal)) (kU kL : String) : RVal :=
  let v := getV pd kU
  if v.isNoneV then getV pd kL else v

/-- The point-resolution step of `XmiStructuralPointConnection.from_dict`:
a coordinate map goes through the injected point factory (when present and
all three coordinates are non-`None`) or through `XmiPoint3D.from_dict`;
anything else logs "Point data is missing or invalid". -/
def spcPointStep (gen : ℕ → String) (usePointFactory : Bool) (pointData : RVal)
    (g : GSt) : (Option XmiPoint3D × List String) × GSt :=
  match pointData with
  | .dict pd =>
      let xv := spcGetCoord pd "X" "x"
      let yv := spcGetCoord pd "Y" "y"
      let zv := spcGetCoord pd "Z" "z"
      if usePointFactory && !xv.isNoneV && !yv.isNoneV && !zv.isNoneV then
        match pyFloat xv, pyFloat yv, pyFloat zv with
        | some x, some y, some z =>
            let cp := createPoint3D gen x y z none g
            ((some cp.1, []), cp.2)
        | _, _, _ =>
            -- float(...) raised; the error is logged and no "point" is set
            ((none, ["ValueError"]), g)
      else
        let pf := pointFromDict gen pd g
        ((pf.1.1, pf.1.2), pf.2)
  | _ => ((none, ["Point data is missing or invalid"]), g)

/-- `XmiStructuralPointConnection.from_dict`.  `usePointFactory` tells whether
the loader injected the model's `create_point_3d` (constructed point
instances cannot occur in wire payloads, so the `isinstance` branch is not
reachable from records). -/
def spcFromDict (gen : ℕ → String) (obj : Record) (usePointFactory : Bool)
    (g : GSt) : (Option XmiStructuralPointConnection × List String) × GSt :=
  let p3 := [("id" : String), "name", "point"].foldl
    (requiredStep (hasKeyVariants obj)) (obj, [])
  let popped := spcPopPoint p3.1
  let ps := spcPointStep gen usePointFactory popped.1 g
  fromDictAssemble (p3.2 ++ ps.1.2) "ValidationError"
    (spcModelValidate gen popped.2 ps.1.1 ps.2)

/-! ## The graph loader (`XmiModel.load_from_dict`, xmi_model.py)

The loader walks `Entities` dispatching on `EntityType` through
`ENTITY_CLASS_MAPPING`, then walks `Relationships` resolving `Source`/`Target`
through `find_entity`.  The dispatch tables and the per-class constructors are
parameters (`EntityMapping`, `RelMapping`), so the theorems hold for every
registry; `entityClassMapping` below instantiates the embedded classes under
their real tags.  A Python exception escaping `load_from_dict` is modelled as
`Except.error` carrying the partially mutated model state. -/

/-- Entities a load can hold.  The embedded variants are concrete; `other`
stands for instances produced by constructors of the remaining registered
classes (every `XmiBaseEntity` carries a string `id`). -/
inductive Entity where
  | point (p : XmiPoint3D)
  | spc (c : XmiStructuralPointConnection)
  | material (m : XmiMaterial)
  | storey (s : XmiStorey)
  | other (id : String) (fields : Record)
  deriving Repr

/-- `getattr(entity, "id", None)` — every entity has a string id. -/
def Entity.eid : Entity → String
  | .point p => p.id
  | .spc c => c.base.id
  | .material m => m.base.id
  | .storey s => s.base.id
  | .other i _ => i

/-- One element of `XmiModel.errors`.  The loader's own `ErrorLog` records
carry a type tag, the input index, a message and the offending record;
`self.errors.extend(errors)` appends the constructors' bare exceptions
unchanged, which `exn` models.  (Python stores `str(record)` in `obj`; we keep
the record itself — no verified property depends on the rendering.) -/
inductive ErrEntry where
  | log (entity_type : String) (index : ℕ) (message : String) (obj : RVal)
  | exn (message : String)
  deriving Repr

/-- `XmiBaseRelationship` fields other than the resolved endpoints (with the
`XmiHasStructuralPointConnection` extras). -/
structure RelCore where
  id : String
  name : String
  description : Option String
  uml_type : Option String
  entity_type : String
  is_begin : Option Bool
  is_end : Option Bool
  deriving Repr, DecidableEq

/-- A constructed relationship: `rel_class(source=..., target=..., **clean)`
stores the two resolved entities. -/
structure Rel where
  source : Entity
  target : Entity
  core : RelCore
  deriving Repr

/-- Outcome of `entity_class.from_dict(...)` (or `model_validate` for classes
without `from_dict`): a raised exception, or an optional instance with the
returned error list. -/
abbrev CtorResult := Except String (Option Entity × List String)

/-- An entity constructor as the loader sees it: it may consult and mutate the
point cache / uuid state. -/
abbrev EntityCtor := Record → GSt → CtorResult × GSt

/-- A relationship constructor: receives the resolved endpoints and the
record minus `Source`/`Target`. -/
abbrev RelCtor := Entity → Entity → Record → GSt → Except String RelCore × GSt

abbrev EntityMapping := String → Option EntityCtor
abbrev RelMapping := String → Option RelCtor

/-- The mutable `XmiModel` state touched by `load_from_dict`. -/
structure MState where
  entities : List Entity
  relationships : List Rel
  errors : List ErrEntry
  gst : GSt
  name : RVal
  xmi_version : RVal
  application_name : RVal
  application_version : RVal
  deriving Repr

/-- The empty model. -/
def MState.empty : MState := ⟨[], [], [], ⟨[], 0⟩, .vnone, .vnone, .vnone, .vnone⟩

/-- `XmiModel.find_entity`: first entity whose `id` equals the raw value. -/
def findEntity (ents : List Entity) (v : RVal) : Option Entity :=
  ents.find? (fun e => match v with | .str s => e.eid == s | _ => false)

/-- Append one `ErrorLog` record. -/
def logErr (s : MState) (tag : String) (idx : ℕ) (msg : String) (obj : RVal) :
    MState :=
  { s with errors := s.errors ++ [.log tag idx msg obj] }

/-- Phase-1 processing of one entity record.  Mirrors the source line by line:
the `EntityType` read and the `ErrorLog` construction happen outside the
`try`, so a non-dict record (`.get` raises `AttributeError`), an unhashable
tag (`dict.get` raises `TypeError`) or a truthy non-string tag (`ErrorLog`
validation raises) abort the load; everything inside the `try` is converted
into log entries. -/
def stepEntity (entityMap : EntityMapping) (s : MState) (idx : ℕ) (rv : RVal) :
    Except (MState × String) MState :=
  match rv with
  | .dict fields =>
      match getV fields "EntityType" with
      | .dict _ => .error (s, "TypeError: unhashable type: \x27dict\x27")
      | .list _ => .error (s, "TypeError: unhashable type: \x27list\x27")
      | .vnone =>
          .ok (logErr s "Unknown" idx
            "Entity type \x27None\x27 is not recognized." rv)
      | .num q =>
          if q == 0 then
            .ok (logErr s "Unknown" idx
              ("Entity type \x27" ++ pyStrV (.num q) ++ "\x27 is not recognized.")
              rv)
          else .error (s, "ValidationError: entity_type must be a string")
      | .bool b =>
          if b then .error (s, "ValidationError: entity_type must be a string")
          else
            .ok (logErr s "Unknown" idx
              "Entity type \x27False\x27 is not recognized." rv)
      | .str t =>
          if t == "" then
            .ok (logErr s "Unknown" idx
              "Entity type \x27\x27 is not recognized." rv)
          else
            match entityMap t with
            | none =>
                .ok (logErr s t idx
                  ("Entity type \x27" ++ t ++ "\x27 is not recognized.") rv)
            | some ctor =>
                let res := ctor fields s.gst
                let s1 := { s with gst := res.2 }
                match res.1 with
                | .ok pr =>
                    let s2 :=
                      match pr.1 with
                      | some e =>
                          let s2a := { s1 with entities := s1.entities ++ [e] }
                          match e with
                          | .point p =>
                              { s2a with gst := registerPoint p none s2a.gst }
                          | _ => s2a
                      | none => s1
                    .ok { s2 with errors := s2.errors ++ pr.2.map .exn }
                | .error m =>
                    .ok (logErr s1 t idx
                      ("Failed to instantiate entity: " ++ m) rv)
  | _ => .error (s, "AttributeError: object has no attribute \x27get\x27")

/-- Phase 1: fold over the entity records, aborting on an escaped exception. -/
def loadEntities (entityMap : EntityMapping) :
    MState → ℕ → List RVal → Except (MState × String) MState
  | s, _, [] => .ok s
  | s, idx, rv :: rest =>
      match stepEntity entityMap s idx rv with
      | .error e => .error e
      | .ok s1 => loadEntities entityMap s1 (idx + 1) rest

/-- Phase-2 processing of one relationship record. -/
def stepRel (relMap : RelMapping) (s : MState) (idx : ℕ) (rv : RVal) :
    Except (MState × String) MState :=
  match rv with
  | .dict fields =>
      match getV fields "EntityType" with
      | .dict _ => .error (s, "TypeError: unhashable type: \x27dict\x27")
      | .list _ => .error (s, "TypeError: unhashable type: \x27list\x27")
      | .vnone =>
          .ok (logErr s "Unknown" idx
            "Relationship type \x27None\x27 is not recognized." rv)
      | .num q =>
          if q == 0 then
            .ok (logErr s "Unknown" idx
              ("Relationship type \x27" ++ pyStrV (.num q) ++
                "\x27 is not recognized.") rv)
          else .error (s, "ValidationError: entity_type must be a string")
      | .bool b =>
          if b then .error (s, "ValidationError: entity_type must be a string")
          else
            .ok (logErr s "Unknown" idx
              "Relationship type \x27False\x27 is not recognized." rv)
      | .str t =>
          if t == "" then
            .ok (logErr s "Unknown" idx
              "Relationship type \x27\x27 is not recognized." rv)
          else
            match relMap t with
            | none =>
                .ok (logErr s t idx
                  ("Relationship type \x27" ++ t ++ "\x27 is not recognized.")
                  rv)
            | some ctor =>
                match findEntity s.entities (getV fields "Source"),
                      findEntity s.entities (getV fields "Target") with
                | some se, some te =>
                    let clean := fields.filter
                      (fun p => p.1 != "Source" && p.1 != "Target")
                    let res := ctor se te clean s.gst
                    let s1 := { s with gst := res.2 }
                    match res.1 with
                    | .ok core =>
                        .ok { s1 with relationships :=
                          s1.relationships ++ [⟨se, te, core⟩] }
                    | .error m =>
                        .ok (logErr s1 t idx
                          ("Failed to instantiate relationship: " ++ m) rv)
                | _, _ =>
                    .ok (logErr s t idx
                      "Missing source or target entity for relationship." rv)
  | _ => .error (s, "AttributeError: object has no attribute \x27get\x27")

/-- Phase 2: fold over the relationship records. -/
def loadRels (relMap : RelMapping) :
    MState → ℕ → List RVal → Except (MState × String) MState
  | s, _, [] => .ok s
  | s, idx, rv :: rest =>
      match stepRel relMap s idx rv with
      | .error e => .error e
      | .ok s1 => loadRels relMap s1 (idx + 1) rest

/-- `XmiModel.load_from_dict`: set the model metadata, run Phase 1 over
`Entities`, then Phase 2 over `Relationships`.  A missing key defaults to the
empty list; a present non-list value makes the enumeration fail (modelled as
an abort — for a non-iterable exactly, and for iterable non-lists the very
first record access raises). -/
def loadPhase2 (relMap : RelMapping) (r1 : Except (MState × String) MState)
    (relsV : RVal) : Except (MState × String) MState :=
  match r1 with
  | .error e => .error e
  | .ok s1 =>
      match relsV with
      | .list rels => loadRels relMap s1 0 rels
      | _ => .error (s1, "TypeError: object is not iterable")

def rawList (data : Record) (key : String) : RVal :=
  match getRaw data key with
  | none => RVal.list []
  | some v => v

def loadFromDict (entityMap : EntityMapping) (relMap : RelMapping) (s : MState)
    (data : Record) : Except (MState × String) MState :=
  let s0 := { s with
    name := getV data "Name",
    xmi_version := getV data "XmiVersion",
    application_name := getV data "ApplicationName",
    application_version := getV data "ApplicationVersion" }
  match rawList data "Entities" with
  | .list ents =>
      loadPhase2 relMap (loadEntities entityMap s0 0 ents)
        (rawList data "Relationships")
  | _ => .error (s0, "TypeError: object is not iterable")

/-- The embedded fragment of `ENTITY_CLASS_MAPPING`: the classes whose
constructors are embedded above, under their registered tags.
`XmiStructuralPointConnection.from_dict` takes a `point_factory` keyword, so
the loader injects `create_point_3d`; `XmiStorey` has no `from_dict` and goes
through `model_validate` with an empty error list. -/
def entityClassMapping (gen : ℕ → String) : EntityMapping := fun tag =>
  if tag = "XmiPoint3D" then
    some (fun r g =>
      let pf := pointFromDict gen r g
      (.ok ((pf.1.1).map Entity.point, pf.1.2), pf.2))
  else if tag = "XmiStructuralPointConnection" then
    some (fun r g =>
      let sf := spcFromDict gen r true g
      (.ok ((sf.1.1).map Entity.spc, sf.1.2), sf.2))
  else if tag = "XmiStructuralMaterial" then
    some (fun r g =>
      let mf := materialFromDict gen r g
      (.ok ((mf.1.1).map Entity.material, mf.1.2), mf.2))
  else if tag = "XmiStorey" then
    some (fun r g =>
      let sv := storeyModelValidate gen r g
      match sv.1 with
      | .ok st => (.ok (some (.storey st), []), sv.2)
      | .error _ => (.error "ValidationError", sv.2))
  else none

/-- Pydantic validation of an `Optional[bool]` field. -/
def validateOptBool : Option RVal → Except Unit (Option Bool)
  | none => .ok none
  | some .vnone => .ok none
  | some (.bool b) => .ok (some b)
  | some _ => .error ()

/-- Pydantic validation of an `Optional[str]` field with a non-`None`
default. -/
def validateOptStrD (dflt : String) : Option RVal → Except Unit (Option String)
  | none => .ok (some dflt)
  | some v => validateOptStr (some v)

/-- `XmiHasStructuralPointConnection(source=..., target=..., **clean)`
(src/xmi/v2/models/relationships/xmi_has_structural_point_connection.py):
duplicate `source`/`target` keyword arguments raise at call time; the
subclass `set_defaults` fills `name`/`entity_type`, the base
`validate_fields` requires a truthy `name`, `validate_target` requires an
`XmiStructuralPointConnection` target, and the base fields are extracted by
alias. -/
def hspcRelCtor (gen : ℕ → String) : RelCtor := fun _src tgt clean g =>
  if hasKey clean "source" || hasKey clean "target" then
    (.error "TypeError: got multiple values for keyword argument", g)
  else
    let c1 := if hasKey clean "name" then clean
              else pySet clean "name" (.str "hasStructuralPointConnection")
    let c2 := if hasKey c1 "entity_type" then c1
              else pySet c1 "entity_type"
                (.str "XmiRelHasStructuralPointConnection")
    if !pyTruthy (getV c2 "name") then (.error "Name must be provided", g)
    else
      match tgt with
      | .spc _ =>
          let idres : Except Unit String × GSt :=
            match aliasGet c2 "ID" "id" with
            | none => let d := drawUuid gen g; (.ok d.1, d.2)
            | some v => (validateStr (some v), g)
          match idres.1 with
          | .error _ => (.error "ValidationError", idres.2)
          | .ok i =>
              match validateStr (aliasGet c2 "Name" "name"),
                    validateOptStrD "" (aliasGet c2 "Description" "description"),
                    validateOptStrD "" (aliasGet c2 "UmlType" "uml_type"),
                    validateStr (aliasGet c2 "EntityType" "entity_type"),
                    validateOptBool (aliasGet c2 "IsBegin" "is_begin"),
                    validateOptBool (aliasGet c2 "IsEnd" "is_end") with
              | .ok nm, .ok d, .ok u, .ok et, .ok ib, .ok ie =>
                  (.ok ⟨i, nm, d, u, et, ib, ie⟩, idres.2)
              | _, _, _, _, _, _ => (.error "ValidationError", idres.2)
      | _ => (.error "Target should be of type XmiStructuralPointConnection", g)

/-- The embedded fragment of `RELATIONSHIP_CLASS_MAPPING`. -/
def relClassMapping (gen : ℕ → String) : RelMapping := fun tag =>
  if tag = "XmiHasStructuralPointConnection" then some (hspcRelCtor gen)
  else none

/-! ## Serialization to the wire format (`Model.dump`)

No `dump` method exists anywhere under `src/`; the definitions of this
section are modelled from the specification alone so that the round-trip
contract can be examined against the (source-derived) loader. -/

/-- Modelled from the spec: an optional string field dumps to its wire value
(`None` for an absent value). -/
def dumpOptStr : Option String → RVal
  | none => .vnone
  | some s => .str s

/-- Modelled from the spec: an optional float field dumps to its wire value. -/
def dumpOptNum : Option ℚ → RVal
  | none => .vnone
  | some q => .num q

/-- Modelled from the spec: an optional bool field dumps to its wire value. -/
def dumpOptBool : Option Bool → RVal
  | none => .vnone
  | some b => .bool b

/-- Modelled from the spec: an optional float triple dumps to a wire list. -/
def dumpOptTup : Option (ℚ × ℚ × ℚ) → RVal
  | none => .vnone
  | some t => .list [.num t.1, .num t.2.1, .num t.2.2]

/-- Modelled from the spec: the six base-entity fields under their capitalized
wire-format names. -/
def dumpBase (b : BaseFields) : Record :=
  [("ID", .str b.id), ("Name", dumpOptStr b.name),
   ("IFCGUID", dumpOptStr b.ifcguid), ("NativeId", dumpOptStr b.native_id),
   ("Description", dumpOptStr b.description),
   ("EntityType", dumpOptStr b.entity_type)]

/-- Modelled from the spec: the wire record of an `XmiPoint3D` — every field
value under its capitalized wire name (`ID`, `Name`, …, `X`, `Y`, `Z`). -/
def dumpPointRec (p : XmiPoint3D) : Record :=
  [("ID", .str p.id), ("Name", dumpOptStr p.name),
   ("IFCGUID", dumpOptStr p.ifcguid), ("NativeId", dumpOptStr p.native_id),
   ("Description", dumpOptStr p.description),
   ("EntityType", dumpOptStr p.entity_type),
   ("X", .num p.x), ("Y", .num p.y), ("Z", .num p.z)]

/-- Modelled from the spec: the wire record of an `XmiStorey`. -/
def dumpStoreyRec (s : XmiStorey) : Record :=
  dumpBase s.base ++
    [("StoreyElevation", .num s.storey_elevation),
     ("StoreyMass", .num s.storey_mass),
     ("StoreyHorizontalReactionX", dumpOptStr s.storey_horizontal_reaction_x),
     ("StoreyHorizontalReactionY", dumpOptStr s.storey_horizontal_reaction_y),
     ("StoreyVerticalReaction", dumpOptStr s.storey_vertical_reaction)]

/-- Modelled from the spec: the wire record of an `XmiStructuralMaterial`. -/
def dumpMaterialRec (m : XmiMaterial) : Record :=
  dumpBase m.base ++
    [("MaterialType", .str m.material_type.value),
     ("Grade", dumpOptNum m.grade), ("UnitWeight", dumpOptNum m.unit_weight),
     ("EModulus", dumpOptTup m.e_modulus),
     ("GModulus", dumpOptTup m.g_modulus),
     ("PoissonRatio", dumpOptTup m.poisson_ratio),
     ("ThermalCoefficient", dumpOptNum m.thermal_coefficient)]

/-- Modelled from the spec: the wire record of an
`XmiStructuralPointConnection` — the base fields plus the nested `Point`
record (and the nested `Storey` record when present). -/
def dumpSpcRec (c : XmiStructuralPointConnection) : Record :=
  dumpBase c.base ++ [("Point", .dict (dumpPointRec c.point))] ++
    (match c.storey with
     | none => []
     | some st => [("Storey", RVal.dict (dumpStoreyRec st))])

/-- Modelled from the spec: each entity dumps to its wire record; instances of
classes outside the embedded fragment dump to their raw field map. -/
def dumpEntity : Entity → RVal
  | .point p => .dict (dumpPointRec p)
  | .spc c => .dict (dumpSpcRec c)
  | .material m => .dict (dumpMaterialRec m)
  | .storey s => .dict (dumpStoreyRec s)
  | .other _ fields => .dict fields

/-- Modelled from the spec: a relationship record carries `EntityType` as its
dispatch tag plus `Source`/`Target` endpoint identifiers and the relationship
fields under their wire names. -/
def dumpRel (r : Rel) : RVal :=
  .dict [("ID", .str r.core.id), ("Name", .str r.core.name),
    ("Description", dumpOptStr r.core.description),
    ("UmlType", dumpOptStr r.core.uml_type),
    ("EntityType", .str r.core.entity_type),
    ("IsBegin", dumpOptBool r.core.is_begin),
    ("IsEnd", dumpOptBool r.core.is_end),
    ("Source", .str r.source.eid), ("Target", .str r.target.eid)]

/-- Modelled from the spec: `Model.dump` produces the wire-format map — the
four header keys plus the `Entities` and `Relationships` record lists. -/
def dumpModel (s : MState) : Record :=
  [("Name", s.name), ("XmiVersion", s.xmi_version),
   ("ApplicationName", s.application_name),
   ("ApplicationVersion", s.application_version),
   ("Entities", .list (s.entities.map dumpEntity)),
   ("Relationships", .list (s.relationships.map dumpRel))]

/-- Storing under a key makes the key retrieve exactly the stored point. -/
theorem cacheFind_cacheSet_self (c : List (PointKey × XmiPoint3D)) (k : PointKey)
    (v : XmiPoint3D) : cacheFind (cacheSet c k v) k = some v := by
  induction c with
  | nil => simp [cacheSet, cacheFind]
  | cons hd tl ih =>
      by_cases h : hd.1 = k
      · simp [cacheSet, h, cacheFind]
      · simpa [cacheSet, h, cacheFind] using ih

end XmiSpec

namespace XmiSpec

/-! ### Association-list and `fill_defaults` lemmas -/

theorem hasKey_eq_isSome (r : Record) (k : String) :
    hasKey r k = (getRaw r k).isSome := by
  unfold hasKey getRaw
  cases r.find? (fun p => p.1 == k) <;> simp

theorem getRaw_eq_none_of_hasKey (r : Record) (k : String)
    (h : hasKey r k = false) : getRaw r k = none := by
  rw [hasKey_eq_isSome] at h
  exact Option.not_isSome_iff_eq_none.mp (by simp [h])

theorem getRaw_pySet_self (r : Record) (k : String) (v : RVal) :
    getRaw (pySet r k v) k = some v := by
  induction r with
  | nil => simp [pySet, getRaw]
  | cons hd tl ih =>
      cases h : hd.1 == k with
      | true => simp [pySet, h, getRaw]
      | false => simpa [pySet, h, getRaw, List.find?_cons] using ih

theorem getRaw_pySet_ne (r : Record) (k : String) (v : RVal) (k2 : String)
    (h : k2 ≠ k) : getRaw (pySet r k v) k2 = getRaw r k2 := by
  have hkk2 : (k == k2) = false := by
    rw [beq_eq_false_iff_ne]
    exact fun hk => h hk.symm
  induction r with
  | nil => simp [pySet, getRaw, List.find?_cons, hkk2]
  | cons hd tl ih =>
      cases hh : hd.1 == k with
      | true =>
          have hdk : hd.1 = k := by simpa using hh
          simp [pySet, hh, getRaw, List.find?_cons, hkk2, hdk]
      | false =>
          cases hk2 : hd.1 == k2 with
          | true => simp [pySet, hh, getRaw, List.find?_cons, hk2]
          | false => simpa [pySet, hh, getRaw, List.find?_cons, hk2] using ih

theorem hasKey_pySet_ne (r : Record) (k : String) (v : RVal) (k2 : String)
    (h : k2 ≠ k) : hasKey (pySet r k v) k2 = hasKey r k2 := by
  rw [hasKey_eq_isSome, hasKey_eq_isSome, getRaw_pySet_ne r k v k2 h]

/-- Keys other than the three defaulted ones are untouched by `fill_defaults`. -/
theorem fillDefaultsRec_getRaw_other (cls : String) (idv : RVal) (values : Record)
    (k : String) (h1 : k ≠ "ID") (h2 : k ≠ "Name") (h3 : k ≠ "EntityType") :
    getRaw (fillDefaultsRec cls idv values) k = getRaw values k := by
  simp only [fillDefaultsRec]
  split_ifs <;> simp [getRaw_pySet_ne, h1, h2, h3]

theorem hasKey_fillDefaultsRec_other (cls : String) (idv : RVal) (values : Record)
    (k : String) (h1 : k ≠ "ID") (h2 : k ≠ "Name") (h3 : k ≠ "EntityType") :
    hasKey (fillDefaultsRec cls idv values) k = hasKey values k := by
  rw [hasKey_eq_isSome, hasKey_eq_isSome,
    fillDefaultsRec_getRaw_other cls idv values k h1 h2 h3]

/-- The `"ID"` binding after `fill_defaults`. -/
theorem fillDefaultsRec_getRaw_ID (cls : String) (idv : RVal) (values : Record) :
    getRaw (fillDefaultsRec cls idv values) "ID" =
      (if hasKey values "ID" || hasKey values "id" then getRaw values "ID"
       else some idv) := by
  simp only [fillDefaultsRec]
  by_cases hID : hasKey values "ID" = true <;>
    by_cases hid : hasKey values "id" = true <;>
      split_ifs <;>
        simp_all [getRaw_pySet_ne, getRaw_pySet_self,
          hasKey_pySet_ne, getRaw_eq_none_of_hasKey]

/-- The `"Name"` binding after `fill_defaults`. -/
theorem fillDefaultsRec_getRaw_Name (cls : String) (idv : RVal) (values : Record) :
    getRaw (fillDefaultsRec cls idv values) "Name" =
      (if hasKey values "Name" || hasKey values "name" then getRaw values "Name"
       else some idv) := by
  simp only [fillDefaultsRec]
  by_cases hN : hasKey values "Name" = true <;>
    by_cases hn : hasKey values "name" = true <;>
      split_ifs <;>
        simp_all [getRaw_pySet_ne, getRaw_pySet_self,
          hasKey_pySet_ne, getRaw_eq_none_of_hasKey]

/-- The `"EntityType"` binding after `fill_defaults`. -/
theorem fillDefaultsRec_getRaw_EntityType (cls : String) (idv : RVal)
    (values : Record) :
    getRaw (fillDefaultsRec cls idv values) "EntityType" =
      (if hasKey values "EntityType" || hasKey values "entity_type" then
        getRaw values "EntityType"
       else some (.str cls)) := by
  simp only [fillDefaultsRec]
  by_cases hE : hasKey values "EntityType" = true <;>
    by_cases he : hasKey values "entity_type" = true <;>
      split_ifs <;>
        simp_all [getRaw_pySet_ne, getRaw_pySet_self,
          hasKey_pySet_ne, getRaw_eq_none_of_hasKey]

/-- A successful base-field extraction determines each base field from the
record. -/
theorem extractBase_ok (gen : ℕ → String) (r : Record) (g : GSt) (b : BaseFields)
    (hb : (extractBase gen r g).1 = .ok b) :
    (aliasGet r "ID" "id" = some (.str b.id) ∨
      (aliasGet r "ID" "id" = none ∧ b.id = gen g.next)) ∧
    validateOptStr (aliasGet r "Name" "name") = .ok b.name ∧
    validateOptStr (aliasGet r "EntityType" "entity_type") = .ok b.entity_type := by
  have hrest : ∀ (i : String), extractBase.extractBaseRest i r = .ok b →
      b.id = i ∧ validateOptStr (aliasGet r "Name" "name") = .ok b.name ∧
      validateOptStr (aliasGet r "EntityType" "entity_type") = .ok b.entity_type := by
    intro i h
    unfold extractBase.extractBaseRest at h
    split at h
    · cases h
      refine ⟨rfl, ?_, ?_⟩ <;> simp_all
    · cases h
  unfold extractBase at hb
  cases hi : aliasGet r "ID" "id" with
  | none =>
      rw [hi] at hb
      simp only [drawUuid] at hb
      obtain ⟨hid, hrest2⟩ := hrest (gen g.next) hb
      exact ⟨Or.inr ⟨rfl, hid⟩, hrest2⟩
  | some v =>
      rw [hi] at hb
      cases v with
      | str s =>
          simp only [validateStr] at hb
          obtain ⟨hid, hrest2⟩ := hrest s hb
          exact ⟨Or.inl (by rw [hid]), hrest2⟩
      | num q => simp [validateStr] at hb
      | bool bb => simp [validateStr] at hb
      | vnone => simp [validateStr] at hb
      | dict fs => simp [validateStr] at hb
      | list xs => simp [validateStr] at hb

/-! ### Alias-scan lemmas -/

theorem getRaw_scanPairs_none (pairs : List (String × String)) (obj : Record)
    (k : String) (h : ∀ p ∈ pairs, p.1 = k → getRaw obj p.2 = none) :
    getRaw (scanPairs pairs obj) k = none := by
  induction pairs with
  | nil => rfl
  | cons hd tl ih =>
      have htl : ∀ p ∈ tl, p.1 = k → getRaw obj p.2 = none :=
        fun p hp => h p (List.mem_cons_of_mem hd hp)
      cases hv : getRaw obj hd.2 with
      | none => simpa [scanPairs, List.filterMap_cons, hv] using ih htl
      | some v =>
          have hne : ¬(hd.1 == k) = true := by
            intro hk
            have := h hd (List.mem_cons_self hd tl) (by simpa using hk)
            rw [this] at hv; cases hv
          have := ih htl
          simp only [scanPairs, List.filterMap_cons, hv, Option.map_some] at this ⊢
          simpa [getRaw, List.find?_cons, hne] using this

theorem getRaw_scanPairs (pairs : List (String × String)) (obj : Record)
    (k al : String) (hfind : pairs.find? (fun p => p.1 == k) = some (k, al))
    (huniq : ∀ p ∈ pairs, p.1 = k → p.2 = al) :
    getRaw (scanPairs pairs obj) k = getRaw obj al := by
  induction pairs with
  | nil => cases hfind
  | cons hd tl ih =>
      have htl : ∀ p ∈ tl, p.1 = k → p.2 = al :=
        fun p hp => huniq p (List.mem_cons_of_mem hd hp)
      cases hh : hd.1 == k with
      | true =>
          simp only [List.find?_cons, hh, cond_true] at hfind
          have hhd : hd = (k, al) := Option.some.inj hfind
          subst hhd
          cases hv : getRaw obj al with
          | some v =>
              simp only [scanPairs, List.filterMap_cons]
              rw [hv]
              simp [getRaw, List.find?_cons]
          | none =>
              simp only [scanPairs, List.filterMap_cons]
              rw [hv]
              exact getRaw_scanPairs_none tl obj k
                (fun p hp hpk => by rw [htl p hp hpk]; exact hv)
      | false =>
          simp only [List.find?_cons, hh, cond_false] at hfind
          cases hv : getRaw obj hd.2 with
          | none => simpa [scanPairs, List.filterMap_cons, hv] using ih hfind htl
          | some v =>
              have := ih hfind htl
              simp only [scanPairs, List.filterMap_cons, hv, Option.map_some]
                at this ⊢
              simpa [getRaw, List.find?_cons, hh] using this

/-- The alias scan binds `material_type` to the input's `"MaterialType"`. -/
theorem getRaw_materialScan_mt (obj : Record) :
    getRaw (scanPairs materialAliasPairs obj) "material_type" =
      getRaw obj "MaterialType" :=
  getRaw_scanPairs materialAliasPairs obj "material_type" "MaterialType"
    (by rfl) (by decide)

theorem effectiveIdVal_ne_vnone (gen : ℕ → String) (values : Record) (g : GSt) :
    effectiveIdVal gen values g ≠ .vnone := by
  unfold effectiveIdVal
  split_ifs with h1 h2
  · intro he; rw [he] at h1; simp [pyTruthy] at h1
  · intro he; rw [he] at h2; simp [pyTruthy] at h2
  · simp

theorem validateOptStr_map (v : RVal) (o : Option String)
    (hv : v ≠ .vnone) (h : validateOptStr (some v) = .ok o) :
    o.map RVal.str = some v := by
  cases v with
  | str s => simp [validateOptStr] at h; simp [h]
  | vnone => exact absurd rfl hv
  | num q => simp [validateOptStr] at h
  | bool b => simp [validateOptStr] at h
  | dict fs => simp [validateOptStr] at h
  | list xs => simp [validateOptStr] at h

/-- C8 (amended): for every successfully constructed entity, (i) if neither
`"ID"` nor `"id"` is supplied, `id` is the fresh generator draw; (ii) if
neither `"Name"` nor `"name"` is supplied, `name` is set to `id_` — the first
truthy of the supplied `"ID"`/`"id"` values, else the fresh draw; (iii) under
the same condition, `name` equals the entity's `id` provided the `"ID"`/`"id"`
binding that pydantic extraction will use is truthy or absent (a supplied
falsy id, e.g. the empty string, makes `name` a fresh token distinct from
`id`); (iv) if neither `"EntityType"` nor `"entity_type"` is supplied,
`entity_type` is the variant's canonical tag name.  The defaults apply
independently. -/
theorem fill_defaults_spec (gen : ℕ → String) (cls : String) (values : Record)
    (g : GSt) (b : BaseFields)
    (hb : (constructBase gen cls values g).1 = .ok b) :
    (hasKey values "ID" = false ∧ hasKey values "id" = false →
      b.id = gen g.next) ∧
    (hasKey values "Name" = false ∧ hasKey values "name" = false →
      b.name.map RVal.str = some (effectiveIdVal gen values g)) ∧
    (hasKey values "Name" = false ∧ hasKey values "name" = false ∧
      (hasKey values "ID" = true → pyTruthy (getV values "ID") = true) ∧
      (hasKey values "ID" = false → hasKey values "id" = true →
        pyTruthy (getV values "id") = true) →
      b.name = some b.id) ∧
    (hasKey values "EntityType" = false ∧ hasKey values "entity_type" = false →
      b.entity_type = some cls) := by
  simp only [constructBase, fillDefaults] at hb
  obtain ⟨hid, hname, het⟩ := extractBase_ok gen _ _ b hb
  have hNameCase : hasKey values "Name" = false → hasKey values "name" = false →
      b.name.map RVal.str = some (effectiveIdVal gen values g) := by
    intro hN hn
    have h1 : getRaw (fillDefaultsRec cls (effectiveIdVal gen values g) values)
        "Name" = some (effectiveIdVal gen values g) := by
      rw [fillDefaultsRec_getRaw_Name]; simp [hN, hn]
    have h2 : aliasGet (fillDefaultsRec cls (effectiveIdVal gen values g) values)
        "Name" "name" = some (effectiveIdVal gen values g) := by
      simp [aliasGet, h1]
    rw [h2] at hname
    exact validateOptStr_map _ _ (effectiveIdVal_ne_vnone gen values g) hname
  have hIdAbsent : hasKey values "ID" = false → hasKey values "id" = false →
      b.id = gen g.next ∧ effectiveIdVal gen values g = .str (gen g.next) := by
    intro hID hid0
    have hvID : getV values "ID" = .vnone := by
      simp [getV, getRaw_eq_none_of_hasKey values "ID" hID]
    have hvid : getV values "id" = .vnone := by
      simp [getV, getRaw_eq_none_of_hasKey values "id" hid0]
    have hidv : effectiveIdVal gen values g = .str (gen g.next) := by
      unfold effectiveIdVal
      rw [hvID, hvid]
      simp [pyTruthy]
    have h1 : getRaw (fillDefaultsRec cls (effectiveIdVal gen values g) values)
        "ID" = some (effectiveIdVal gen values g) := by
      rw [fillDefaultsRec_getRaw_ID]; simp [hID, hid0]
    have h2 : aliasGet (fillDefaultsRec cls (effectiveIdVal gen values g) values)
        "ID" "id" = some (effectiveIdVal gen values g) := by
      simp [aliasGet, h1]
    rcases hid with hid | ⟨hid, _⟩
    · rw [h2, hidv] at hid
      exact ⟨(RVal.str.inj (Option.some.inj hid)).symm, hidv⟩
    · rw [h2] at hid; cases hid
  refine ⟨fun ⟨hID, hid0⟩ => (hIdAbsent hID hid0).1,
    fun ⟨hN, hn⟩ => hNameCase hN hn, ?_, ?_⟩
  · rintro ⟨hN, hn, hIDt, hidt⟩
    have hmap := hNameCase hN hn
    by_cases hID : hasKey values "ID" = true
    · -- a truthy "ID" binding is both id_ and the extracted id
      have htr := hIDt hID
      have hidv : effectiveIdVal gen values g = getV values "ID" := by
        unfold effectiveIdVal; rw [htr]; simp
      have hsome : getRaw values "ID" = some (getV values "ID") := by
        rw [hasKey_eq_isSome] at hID
        cases hw : getRaw values "ID" with
        | none => rw [hw] at hID; simp at hID
        | some w => simp [getV, hw]
      have h1 : getRaw (fillDefaultsRec cls (effectiveIdVal gen values g) values)
          "ID" = some (getV values "ID") := by
        rw [fillDefaultsRec_getRaw_ID]; simp [hID, hsome]
      have h2 : aliasGet (fillDefaultsRec cls (effectiveIdVal gen values g) values)
          "ID" "id" = some (getV values "ID") := by
        simp [aliasGet, h1]
      rcases hid with hid | ⟨hid, _⟩
      · rw [h2] at hid
        have : RVal.str b.id = getV values "ID" := (Option.some.inj hid).symm
        rw [hidv, ← this] at hmap
        cases hbn : b.name with
        | none => rw [hbn] at hmap; simp at hmap
        | some s =>
            rw [hbn] at hmap
            simp only [Option.map] at hmap
            have := RVal.str.inj (Option.some.inj hmap)
            rw [this]
      · rw [h2] at hid; cases hid
    · have hID0 : hasKey values "ID" = false := by
        cases hw : hasKey values "ID" with
        | false => rfl
        | true => exact absurd hw hID
      by_cases hid1 : hasKey values "id" = true
      · have htr := hidt hID0 hid1
        have hvID : getV values "ID" = .vnone := by
          simp [getV, getRaw_eq_none_of_hasKey values "ID" hID0]
        have hidv : effectiveIdVal gen values g = getV values "id" := by
          unfold effectiveIdVal
          rw [hvID, htr]
          simp [pyTruthy]
        have hsome : getRaw values "id" = some (getV values "id") := by
          rw [hasKey_eq_isSome] at hid1
          cases hw : getRaw values "id" with
          | none => rw [hw] at hid1; simp at hid1
          | some w => simp [getV, hw]
        have h1 : getRaw (fillDefaultsRec cls (effectiveIdVal gen values g) values)
            "ID" = none := by
          rw [fillDefaultsRec_getRaw_ID]
          simp [hID0, hid1, getRaw_eq_none_of_hasKey values "ID" hID0]
        have h1b : getRaw (fillDefaultsRec cls (effectiveIdVal gen values g) values)
            "id" = some (getV values "id") := by
          rw [fillDefaultsRec_getRaw_other cls _ values "id" (by decide) (by decide)
            (by decide)]
          exact hsome
        have h2 : aliasGet (fillDefaultsRec cls (effectiveIdVal gen values g) values)
            "ID" "id" = some (getV values "id") := by
          simp [aliasGet, h1, h1b]
        rcases hid with hid | ⟨hid, _⟩
        · rw [h2] at hid
          have : RVal.str b.id = getV values "id" := (Option.some.inj hid).symm
          rw [hidv, ← this] at hmap
          cases hbn : b.name with
          | none => rw [hbn] at hmap; simp at hmap
          | some s =>
              rw [hbn] at hmap
              simp only [Option.map] at hmap
              have := RVal.str.inj (Option.some.inj hmap)
              rw [this]
        · rw [h2] at hid; cases hid
      · have hid0 : hasKey values "id" = false := by
          cases hw : hasKey values "id" with
          | false => rfl
          | true => exact absurd hw hid1
        obtain ⟨hbid, hidv⟩ := hIdAbsent hID0 hid0
        rw [hidv] at hmap
        cases hbn : b.name with
        | none => rw [hbn] at hmap; simp at hmap
        | some s =>
            rw [hbn] at hmap
            simp only [Option.map] at hmap
            have := RVal.str.inj (Option.some.inj hmap)
            rw [this, hbid]
  · rintro ⟨hE, he⟩
    have h1 : getRaw (fillDefaultsRec cls (effectiveIdVal gen values g) values)
        "EntityType" = some (.str cls) := by
      rw [fillDefaultsRec_getRaw_EntityType]; simp [hE, he]
    have h2 : aliasGet (fillDefaultsRec cls (effectiveIdVal gen values g) values)
        "EntityType" "entity_type" = some (.str cls) := by
      simp [aliasGet, h1]
    rw [h2] at het
    simp [validateOptStr] at het
    exact het.symm

/-- C8 (witness): a record supplying only `"Name"` still gets a generated id
and the variant's tag. -/
theorem fill_defaults_spec_witness :
    (constructBase genU "XmiStructuralMaterial" [("Name", RVal.str "n")]
        ⟨[], 0⟩).1 =
      .ok ⟨"uuid-", some "n", none, none, none, some "XmiStructuralMaterial"⟩ ∧
    ("uuid-" : String) = genU (GSt.mk [] 0).next ∧
    (some "XmiStructuralMaterial" : Option String) = some "XmiStructuralMaterial" := by
  refine ⟨rfl, ?_, ?_⟩
  · exact (fill_defaults_spec genU "XmiStructuralMaterial"
      [("Name", RVal.str "n")] ⟨[], 0⟩
      ⟨"uuid-", some "n", none, none, none, some "XmiStructuralMaterial"⟩
      rfl).1 ⟨rfl, rfl⟩ ▸ rfl
  · exact (fill_defaults_spec genU "XmiStructuralMaterial"
      [("Name", RVal.str "n")] ⟨[], 0⟩
      ⟨"uuid-", some "n", none, none, none, some "XmiStructuralMaterial"⟩
      rfl).2.2.2 ⟨rfl, rfl⟩ ▸ rfl

/-- C8 (counterexample): a record supplying an empty-string `"ID"` and no name
constructs an entity whose `name` is a fresh token while its `id` stays the
empty string, so `name` is not set to the id. -/
theorem fill_defaults_name_not_id_on_empty_id :
    (constructBase genU "XmiBaseEntity" [("ID", RVal.str "")] ⟨[], 0⟩).1 =
      .ok ⟨"", some "uuid-", none, none, none, some "XmiBaseEntity"⟩ ∧
    (some ("uuid-") : Option String) ≠ some "" := by
  exact ⟨rfl, by decide⟩

/-! ### Loader lemmas -/

/-- The model state an aborted or completed load leaves behind. -/
def stateOf : Except (MState × String) MState → MState
  | .ok s => s
  | .error (s, _) => s

/-- A record the loader can process without an exception escaping: a dict
whose `EntityType` is absent, `None`, or a string. -/
def goodRecord (rv : RVal) : Prop :=
  ∃ fields, rv = .dict fields ∧
    (getV fields "EntityType" = .vnone ∨ ∃ t, getV fields "EntityType" = .str t)

/-- Phase-1 processing of a good record never raises, never touches the
relationship list, and only appends to the entity and error lists. -/
theorem stepEntity_isOk (em : EntityMapping) (s : MState) (idx : ℕ) (rv : RVal)
    (hg : goodRecord rv) :
    ∃ s2, stepEntity em s idx rv = .ok s2 ∧
      s2.relationships = s.relationships ∧
      (∃ es, s2.entities = s.entities ++ es) ∧
      (∃ e2, s2.errors = s.errors ++ e2) := by
  obtain ⟨fields, rfl, htag⟩ := hg
  rcases htag with h | ⟨t, h⟩
  · have heq : stepEntity em s idx (.dict fields) =
        .ok (logErr s "Unknown" idx
          "Entity type \x27None\x27 is not recognized." (.dict fields)) := by
      simp [stepEntity, h]
    exact ⟨_, heq, rfl, ⟨[], by simp [logErr]⟩, ⟨_, rfl⟩⟩
  · by_cases ht : t = ""
    · subst ht
      have heq : stepEntity em s idx (.dict fields) =
          .ok (logErr s "Unknown" idx
            "Entity type \x27\x27 is not recognized." (.dict fields)) := by
        simp [stepEntity, h]
      exact ⟨_, heq, rfl, ⟨[], by simp [logErr]⟩, ⟨_, rfl⟩⟩
    · have ht2 : (t == "") = false := by
        rw [beq_eq_false_iff_ne]; exact ht
      cases hm : em t with
      | none =>
          have heq : stepEntity em s idx (.dict fields) =
              .ok (logErr s t idx
                ("Entity type \x27" ++ t ++ "\x27 is not recognized.")
                (.dict fields)) := by
            simp [stepEntity, h, ht2, hm]
          exact ⟨_, heq, rfl, ⟨[], by simp [logErr]⟩, ⟨_, rfl⟩⟩
      | some ctor =>
          cases hr : (ctor fields s.gst).1 with
          | error m =>
              have heq : stepEntity em s idx (.dict fields) =
                  .ok (logErr { s with gst := (ctor fields s.gst).2 } t idx
                    ("Failed to instantiate entity: " ++ m) (.dict fields)) := by
                simp [stepEntity, h, ht2, hm, hr]
              exact ⟨_, heq, rfl, ⟨[], by simp [logErr]⟩, ⟨_, rfl⟩⟩
          | ok pr =>
              cases hin : pr.1 with
              | none =>
                  have heq : stepEntity em s idx (.dict fields) =
                      .ok { s with gst := (ctor fields s.gst).2, errors := s.errors ++ pr.2.map ErrEntry.exn } := by
                    simp [stepEntity, h, ht2, hm, hr, hin]
                  exact ⟨_, heq, rfl, ⟨[], by simp⟩, ⟨_, rfl⟩⟩
              | some e =>
                  cases e with
                  | point p =>
                      have heq : stepEntity em s idx (.dict fields) =
                          .ok { s with gst := registerPoint p none (ctor fields s.gst).2, entities := s.entities ++ [Entity.point p], errors := s.errors ++ pr.2.map ErrEntry.exn } := by
                        simp [stepEntity, h, ht2, hm, hr, hin]
                      exact ⟨_, heq, rfl, ⟨[.point p], rfl⟩, ⟨_, rfl⟩⟩
                  | spc c =>
                      have heq : stepEntity em s idx (.dict fields) =
                          .ok { s with gst := (ctor fields s.gst).2, entities := s.entities ++ [Entity.spc c], errors := s.errors ++ pr.2.map ErrEntry.exn } := by
                        simp [stepEntity, h, ht2, hm, hr, hin]
                      exact ⟨_, heq, rfl, ⟨[.spc c], rfl⟩, ⟨_, rfl⟩⟩
                  | material m =>
                      have heq : stepEntity em s idx (.dict fields) =
                          .ok { s with gst := (ctor fields s.gst).2, entities := s.entities ++ [Entity.material m], errors := s.errors ++ pr.2.map ErrEntry.exn } := by
                        simp [stepEntity, h, ht2, hm, hr, hin]
                      exact ⟨_, heq, rfl, ⟨[.material m], rfl⟩, ⟨_, rfl⟩⟩
                  | storey st =>
                      have heq : stepEntity em s idx (.dict fields) =
                          .ok { s with gst := (ctor fields s.gst).2, entities := s.entities ++ [Entity.storey st], errors := s.errors ++ pr.2.map ErrEntry.exn } := by
                        simp [stepEntity, h, ht2, hm, hr, hin]
                      exact ⟨_, heq, rfl, ⟨[.storey st], rfl⟩, ⟨_, rfl⟩⟩
                  | other i f =>
                      have heq : stepEntity em s idx (.dict fields) =
                          .ok { s with gst := (ctor fields s.gst).2, entities := s.entities ++ [Entity.other i f], errors := s.errors ++ pr.2.map ErrEntry.exn } := by
                        simp [stepEntity, h, ht2, hm, hr, hin]
                      exact ⟨_, heq, rfl, ⟨[.other i f], rfl⟩, ⟨_, rfl⟩⟩

/-- Phase 1 over good records completes without raising, preserving the
relationship list and extending entities and errors. -/
theorem loadEntities_ok (em : EntityMapping) (s : MState) (idx : ℕ)
    (l : List RVal) (hg : ∀ rv ∈ l, goodRecord rv) :
    ∃ s2, loadEntities em s idx l = .ok s2 ∧
      s2.relationships = s.relationships ∧
      (∃ es, s2.entities = s.entities ++ es) ∧
      (∃ e2, s2.errors = s.errors ++ e2) := by
  induction l generalizing s idx with
  | nil => exact ⟨s, rfl, rfl, ⟨[], by simp⟩, ⟨[], by simp⟩⟩
  | cons rv rest ih =>
      obtain ⟨s1, hs1, hrel1, ⟨es1, he1⟩, ⟨er1, hr1⟩⟩ :=
        stepEntity_isOk em s idx rv (hg rv (List.mem_cons_self rv rest))
      obtain ⟨s2, hs2, hrel2, ⟨es2, he2⟩, ⟨er2, hr2⟩⟩ :=
        ih s1 (idx + 1) (fun r hr => hg r (List.mem_cons_of_mem rv hr))
      refine ⟨s2, ?_, ?_, ⟨es1 ++ es2, ?_⟩, ⟨er1 ++ er2, ?_⟩⟩
      · simp [loadEntities, hs1, hs2]
      · rw [hrel2, hrel1]
      · rw [he2, he1, List.append_assoc]
      · rw [hr2, hr1, List.append_assoc]

/-- Phase-2 processing of one record: the entity list is untouched, any
relationship appended has both endpoints found in the current entity list,
and good records never raise. -/
theorem stepRel_shape (rm : RelMapping) (s : MState) (idx : ℕ) (rv : RVal) :
    (stateOf (stepRel rm s idx rv)).entities = s.entities ∧
    (∀ rel ∈ (stateOf (stepRel rm s idx rv)).relationships,
      rel ∈ s.relationships ∨
        (rel.source ∈ s.entities ∧ rel.target ∈ s.entities)) ∧
    (goodRecord rv → ∃ s2, stepRel rm s idx rv = .ok s2) := by
  have hmem : ∀ (v : RVal) (e : Entity), findEntity s.entities v = some e →
      e ∈ s.entities := fun v e h => List.mem_of_find?_eq_some h
  cases rv with
  | dict fields =>
      cases h : getV fields "EntityType" with
      | dict d =>
          have heq : stepRel rm s idx (.dict fields) =
              .error (s, "TypeError: unhashable type: \x27dict\x27") := by
            simp [stepRel, h]
          rw [heq]
          refine ⟨rfl, fun rel hr => Or.inl hr, ?_⟩
          rintro ⟨f2, hf2, htag⟩
          cases hf2
          rw [h] at htag
          rcases htag with h2 | ⟨t, h2⟩ <;> cases h2
      | list d =>
          have heq : stepRel rm s idx (.dict fields) =
              .error (s, "TypeError: unhashable type: \x27list\x27") := by
            simp [stepRel, h]
          rw [heq]
          refine ⟨rfl, fun rel hr => Or.inl hr, ?_⟩
          rintro ⟨f2, hf2, htag⟩
          cases hf2
          rw [h] at htag
          rcases htag with h2 | ⟨t, h2⟩ <;> cases h2
      | vnone =>
          have heq : stepRel rm s idx (.dict fields) =
              .ok (logErr s "Unknown" idx
                "Relationship type \x27None\x27 is not recognized."
                (.dict fields)) := by
            simp [stepRel, h]
          rw [heq]
          exact ⟨rfl, fun rel hr => Or.inl hr, fun _ => ⟨_, rfl⟩⟩
      | num q =>
          by_cases hq : q = 0
          · subst hq
            have heq : stepRel rm s idx (.dict fields) =
                .ok (logErr s "Unknown" idx
                  ("Relationship type \x27" ++ pyStrV (.num 0) ++
                    "\x27 is not recognized.") (.dict fields)) := by
              simp [stepRel, h]
            rw [heq]
            exact ⟨rfl, fun rel hr => Or.inl hr, fun _ => ⟨_, rfl⟩⟩
          · have hq2 : (q == 0) = false := by
              rw [beq_eq_false_iff_ne]; exact hq
            have heq : stepRel rm s idx (.dict fields) =
                .error (s, "ValidationError: entity_type must be a string") := by
              simp [stepRel, h, hq2]
            rw [heq]
            refine ⟨rfl, fun rel hr => Or.inl hr, ?_⟩
            rintro ⟨f2, hf2, htag⟩
            cases hf2
            rw [h] at htag
            rcases htag with h2 | ⟨t, h2⟩ <;> cases h2
      | bool b =>
          cases b with
          | true =>
              have heq : stepRel rm s idx (.dict fields) =
                  .error (s, "ValidationError: entity_type must be a string") := by
                simp [stepRel, h]
              rw [heq]
              refine ⟨rfl, fun rel hr => Or.inl hr, ?_⟩
              rintro ⟨f2, hf2, htag⟩
              cases hf2
              rw [h] at htag
              rcases htag with h2 | ⟨t, h2⟩ <;> cases h2
          | false =>
              have heq : stepRel rm s idx (.dict fields) =
                  .ok (logErr s "Unknown" idx
                    "Relationship type \x27False\x27 is not recognized."
                    (.dict fields)) := by
                simp [stepRel, h]
              rw [heq]
              exact ⟨rfl, fun rel hr => Or.inl hr, fun _ => ⟨_, rfl⟩⟩
      | str t =>
          by_cases ht : t = ""
          · subst ht
            have heq : stepRel rm s idx (.dict fields) =
                .ok (logErr s "Unknown" idx
                  "Relationship type \x27\x27 is not recognized."
                  (.dict fields)) := by
              simp [stepRel, h]
            rw [heq]
            exact ⟨rfl, fun rel hr => Or.inl hr, fun _ => ⟨_, rfl⟩⟩
          · have ht2 : (t == "") = false := by
              rw [beq_eq_false_iff_ne]; exact ht
            cases hm : rm t with
            | none =>
                have heq : stepRel rm s idx (.dict fields) =
                    .ok (logErr s t idx
                      ("Relationship type \x27" ++ t ++
                        "\x27 is not recognized.") (.dict fields)) := by
                  simp [stepRel, h, ht2, hm]
                rw [heq]
                exact ⟨rfl, fun rel hr => Or.inl hr, fun _ => ⟨_, rfl⟩⟩
            | some ctor =>
                cases hsrc : findEntity s.entities (getV fields "Source") with
                | none =>
                    have heq : stepRel rm s idx (.dict fields) =
                        .ok (logErr s t idx
                          "Missing source or target entity for relationship."
                          (.dict fields)) := by
                      simp [stepRel, h, ht2, hm, hsrc]
                    rw [heq]
                    exact ⟨rfl, fun rel hr => Or.inl hr, fun _ => ⟨_, rfl⟩⟩
                | some se =>
                    cases htgt : findEntity s.entities (getV fields "Target") with
                    | none =>
                        have heq : stepRel rm s idx (.dict fields) =
                            .ok (logErr s t idx
                              "Missing source or target entity for relationship."
                              (.dict fields)) := by
                          simp [stepRel, h, ht2, hm, hsrc, htgt]
                        rw [heq]
                        exact ⟨rfl, fun rel hr => Or.inl hr, fun _ => ⟨_, rfl⟩⟩
                    | some te =>
                        cases hr : (ctor se te (fields.filter
                            (fun p => p.1 != "Source" && p.1 != "Target"))
                            s.gst).1 with
                        | ok core =>
                            have heq : stepRel rm s idx (.dict fields) =
                                .ok { s with
                                  gst := (ctor se te (fields.filter
                                    (fun p => p.1 != "Source" &&
                                      p.1 != "Target")) s.gst).2,
                                  relationships := s.relationships ++
                                    [⟨se, te, core⟩] } := by
                              simp [stepRel, h, ht2, hm, hsrc, htgt, hr]
                            rw [heq]
                            refine ⟨rfl, ?_, fun _ => ⟨_, rfl⟩⟩
                            intro rel hrel
                            simp only [stateOf] at hrel
                            rcases List.mem_append.mp hrel with hrel | hrel
                            · exact Or.inl hrel
                            · rw [List.mem_singleton] at hrel
                              subst hrel
                              exact Or.inr ⟨hmem _ _ hsrc, hmem _ _ htgt⟩
                        | error m =>
                            have heq : stepRel rm s idx (.dict fields) =
                                .ok (logErr { s with
                                  gst := (ctor se te (fields.filter
                                    (fun p => p.1 != "Source" &&
                                      p.1 != "Target")) s.gst).2 } t idx
                                  ("Failed to instantiate relationship: " ++ m)
                                  (.dict fields)) := by
                              simp [stepRel, h, ht2, hm, hsrc, htgt, hr]
                            rw [heq]
                            exact ⟨rfl, fun rel hrel => Or.inl hrel,
                              fun _ => ⟨_, rfl⟩⟩
  | str a => exact ⟨rfl, fun rel hr => Or.inl hr,
      fun hg => by obtain ⟨f2, hf2, _⟩ := hg; cases hf2⟩
  | num a => exact ⟨rfl, fun rel hr => Or.inl hr,
      fun hg => by obtain ⟨f2, hf2, _⟩ := hg; cases hf2⟩
  | bool a => exact ⟨rfl, fun rel hr => Or.inl hr,
      fun hg => by obtain ⟨f2, hf2, _⟩ := hg; cases hf2⟩
  | vnone => exact ⟨rfl, fun rel hr => Or.inl hr,
      fun hg => by obtain ⟨f2, hf2, _⟩ := hg; cases hf2⟩
  | list a => exact ⟨rfl, fun rel hr => Or.inl hr,
      fun hg => by obtain ⟨f2, hf2, _⟩ := hg; cases hf2⟩

/-- Phase 2 preserves the entity list, and every relationship of the final
(or partial) state was present initially or has both endpoints in the entity
list. -/
theorem loadRels_endpoints (rm : RelMapping) (s : MState) (idx : ℕ)
    (l : List RVal) :
    (stateOf (loadRels rm s idx l)).entities = s.entities ∧
    ∀ rel ∈ (stateOf (loadRels rm s idx l)).relationships,
      rel ∈ s.relationships ∨
        (rel.source ∈ s.entities ∧ rel.target ∈ s.entities) := by
  induction l generalizing s idx with
  | nil => exact ⟨rfl, fun rel hr => Or.inl hr⟩
  | cons rv rest ih =>
      obtain ⟨hent, hrels, _⟩ := stepRel_shape rm s idx rv
      cases hs : stepRel rm s idx rv with
      | error e =>
          rw [hs] at hent hrels
          exact ⟨by simpa [loadRels, hs, stateOf] using hent,
            fun rel hr => hrels rel (by simpa [loadRels, hs, stateOf] using hr)⟩
      | ok s1 =>
          rw [hs] at hent hrels
          obtain ⟨ih1, ih2⟩ := ih s1 (idx + 1)
          refine ⟨?_, ?_⟩
          · simp only [loadRels, hs]
            rw [ih1]
            exact hent
          · intro rel hr
            simp only [loadRels, hs] at hr
            rcases ih2 rel hr with hr2 | ⟨h1, h2⟩
            · rcases hrels rel hr2 with hr3 | hr3
              · exact Or.inl hr3
              · exact Or.inr hr3
            · have hent2 : s1.entities = s.entities := hent
              rw [hent2] at h1 h2
              exact Or.inr ⟨h1, h2⟩

/-- Phase 2 over good records never raises. -/
theorem loadRels_ok (rm : RelMapping) (s : MState) (idx : ℕ) (l : List RVal)
    (hg : ∀ rv ∈ l, goodRecord rv) :
    ∃ s2, loadRels rm s idx l = .ok s2 := by
  induction l generalizing s idx with
  | nil => exact ⟨s, rfl⟩
  | cons rv rest ih =>
      obtain ⟨_, _, hok⟩ := stepRel_shape rm s idx rv
      obtain ⟨s1, hs1⟩ := hok (hg rv (List.mem_cons_self rv rest))
      obtain ⟨s2, hs2⟩ := ih s1 (idx + 1)
        (fun r hr => hg r (List.mem_cons_of_mem rv hr))
      exact ⟨s2, by simp [loadRels, hs1, hs2]⟩

/-- Phase 1 never touches the relationship list, even when aborting. -/
theorem stepEntity_rels (em : EntityMapping) (s : MState) (idx : ℕ) (rv : RVal) :
    (stateOf (stepEntity em s idx rv)).relationships = s.relationships := by
  cases rv with
  | dict fields =>
      cases h : getV fields "EntityType" with
      | dict d => simp [stepEntity, h, stateOf]
      | list d => simp [stepEntity, h, stateOf]
      | vnone => simp [stepEntity, h, stateOf, logErr]
      | num q =>
          by_cases hq : q = 0
          · subst hq; simp [stepEntity, h, stateOf, logErr]
          · have hq2 : (q == 0) = false := by
              rw [beq_eq_false_iff_ne]; exact hq
            simp [stepEntity, h, hq2, stateOf]
      | bool b => cases b <;> simp [stepEntity, h, stateOf, logErr]
      | str t =>
          by_cases ht : t = ""
          · subst ht; simp [stepEntity, h, stateOf, logErr]
          · have ht2 : (t == "") = false := by
              rw [beq_eq_false_iff_ne]; exact ht
            cases hm : em t with
            | none => simp [stepEntity, h, ht2, hm, stateOf, logErr]
            | some ctor =>
                cases hr : (ctor fields s.gst).1 with
                | error m => simp [stepEntity, h, ht2, hm, hr, stateOf, logErr]
                | ok pr =>
                    cases hin : pr.1 with
                    | none => simp [stepEntity, h, ht2, hm, hr, hin, stateOf]
                    | some e =>
                        cases e <;>
                          simp [stepEntity, h, ht2, hm, hr, hin, stateOf]
  | str a => rfl
  | num a => rfl
  | bool a => rfl
  | vnone => rfl
  | list a => rfl

theorem loadEntities_rels (em : EntityMapping) (s : MState) (idx : ℕ)
    (l : List RVal) :
    (stateOf (loadEntities em s idx l)).relationships = s.relationships := by
  induction l generalizing s idx with
  | nil => rfl
  | cons rv rest ih =>
      have hstep := stepEntity_rels em s idx rv
      cases hs : stepEntity em s idx rv with
      | error e =>
          rw [hs] at hstep
          simpa [loadEntities, hs, stateOf] using hstep
      | ok s1 =>
          rw [hs] at hstep
          have : (stateOf (loadEntities em s1 (idx + 1) rest)).relationships =
              s1.relationships := ih s1 (idx + 1)
          simp only [loadEntities, hs]
          rw [this]
          exact hstep

/-- Phase 2 applied to any phase-1 outcome: every relationship in the final
state was inherited from phase 1 or has both endpoints among the final
entities. -/
theorem loadPhase2_endpoints (rm : RelMapping)
    (r1 : Except (MState × String) MState) (rv : RVal) :
    ∀ rel ∈ (stateOf (loadPhase2 rm r1 rv)).relationships,
      rel ∈ (stateOf r1).relationships ∨
        (rel.source ∈ (stateOf (loadPhase2 rm r1 rv)).entities ∧
         rel.target ∈ (stateOf (loadPhase2 rm r1 rv)).entities) := by
  intro rel hrel
  cases r1 with
  | error e => exact Or.inl hrel
  | ok s1 =>
      cases rv with
      | list rels =>
          obtain ⟨hent, hmem⟩ := loadRels_endpoints rm s1 0 rels
          have hrel2 : rel ∈ (stateOf (loadRels rm s1 0 rels)).relationships :=
            hrel
          rcases hmem rel hrel2 with hin | ⟨ha, hb⟩
          · exact Or.inl hin
          · refine Or.inr ⟨?_, ?_⟩
            · show rel.source ∈ (stateOf (loadRels rm s1 0 rels)).entities
              rw [hent]; exact ha
            · show rel.target ∈ (stateOf (loadRels rm s1 0 rels)).entities
              rw [hent]; exact hb
      | dict d => exact Or.inl hrel
      | str a => exact Or.inl hrel
      | num a => exact Or.inl hrel
      | bool a => exact Or.inl hrel
      | vnone => exact Or.inl hrel

/-- Dumping an optional string and re-validating it gives the value back. -/
theorem validateOptStr_dump (o : Option String) :
    validateOptStr (some (dumpOptStr o)) = .ok o := by
  cases o <;> rfl

set_option maxHeartbeats 1000000 in
/-- Record-level round trip for a point with a truthy id and the canonical
entity-type tag: re-loading its dumped wire record reproduces exactly the
point, with no errors and no generator draw. -/
theorem pointFromDict_dump (gen : ℕ → String) (p : XmiPoint3D) (g : GSt)
    (hid : p.id ≠ "") (het : p.entity_type = some "XmiPoint3D") :
    pointFromDict gen (dumpPointRec p) g = ((some p, []), g) := by
  have hid2 : (p.id == "") = false := by rw [beq_eq_false_iff_ne]; exact hid
  have hset : setEntityTypeGeometry "XmiPoint3D" (dumpPointRec p) =
      dumpPointRec p := by
    simp [setEntityTypeGeometry, dumpPointRec, getV, getRaw, List.find?, het,
      dumpOptStr, pyTruthy, pySet]
  have hreq : ([("X" : String), "Y", "Z"].foldl
      (requiredStep (fun attr => hasKey (dumpPointRec p) attr))
      (dumpPointRec p, [])) = (dumpPointRec p, []) := by
    simp [requiredStep, hasKey, getRaw, dumpPointRec, List.find?]
  have hfill : fillDefaults gen "XmiPoint3D" (dumpPointRec p) g =
      (dumpPointRec p, g) := by
    simp [fillDefaults, fillDefaultsRec, hasKey, getRaw, getV, dumpPointRec,
      List.find?, pyTruthy, hid2]
  have hext : extractBase gen (dumpPointRec p) g =
      (.ok ⟨p.id, p.name, p.ifcguid, p.native_id, p.description,
        p.entity_type⟩, g) := by
    simp [extractBase, extractBase.extractBaseRest, aliasGet, getRaw,
      dumpPointRec, List.find?, validateStr, validateOptStr_dump, het]
  have hmv : pointModelValidate gen (dumpPointRec p) g = (.ok p, g) := by
    simp only [pointModelValidate, hset, hfill, hext]
    simp [aliasGet, getRaw, dumpPointRec, List.find?, validateFloat,
      validateFloatV]
  simp only [pointFromDict, hreq, hmv]
  rfl

/-- Reloading the dumped records of a list of canonical points appends exactly
those points, adds no errors, touches no relationships and draws no uuid. -/
theorem loadPoints_roundtrip (gen : ℕ → String) (l : List Entity) (s : MState)
    (idx : ℕ)
    (hl : ∀ e ∈ l, ∃ p : XmiPoint3D,
      e = .point p ∧ p.id ≠ "" ∧ p.entity_type = some "XmiPoint3D") :
    ∃ s2, loadEntities (entityClassMapping gen) s idx (l.map dumpEntity) =
        .ok s2 ∧
      s2.entities = s.entities ++ l ∧ s2.relationships = s.relationships ∧
      s2.errors = s.errors ∧ s2.gst.next = s.gst.next := by
  induction l generalizing s idx with
  | nil => exact ⟨s, rfl, by simp, rfl, rfl, rfl⟩
  | cons e tl ih =>
      obtain ⟨p, rfl, hid, het⟩ := hl e (List.mem_cons_self e tl)
      have hget : getV (dumpPointRec p) "EntityType" = .str "XmiPoint3D" := by
        simp [dumpPointRec, getV, getRaw, List.find?, het, dumpOptStr]
      have hpfd := pointFromDict_dump gen p s.gst hid het
      have hstep : stepEntity (entityClassMapping gen) s idx
          (.dict (dumpPointRec p)) =
          .ok { s with entities := s.entities ++ [.point p], gst := registerPoint p none s.gst } := by
        simp [stepEntity, hget, entityClassMapping, hpfd, logErr]
      obtain ⟨s2, hload, hent, hrel, herr, hnext⟩ :=
        ih { s with entities := s.entities ++ [.point p], gst := registerPoint p none s.gst } (idx + 1)
          (fun e2 he2 => hl e2 (List.mem_cons_of_mem _ he2))
      refine ⟨s2, ?_, ?_, hrel, herr, hnext⟩
      · simp [loadEntities, dumpEntity, hstep, hload]
      · rw [hent]; simp

/-- A `from_dict` that yields no instance always appended a final error. -/
theorem fromDictAssemble_none {α : Type} (errs : List String) (failMsg : String)
    (mv : Except Unit α × GSt)
    (h : (fromDictAssemble errs failMsg mv).1.1 = none) :
    (fromDictAssemble errs failMsg mv).1.2 ≠ [] := by
  unfold fromDictAssemble at h ⊢
  cases hmv : mv.1 with
  | ok inst => rw [hmv] at h; simp at h
  | error e => simp

/-- C5 (amended): `from_dict` returns an optional instance and an error list;
an absent instance is always accompanied by a non-empty error list, but the
two shapes are not exclusive — a record may yield an instance together with
non-fatal errors (see the counterexample). -/
theorem spc_from_dict_none_has_errors (gen : ℕ → String) (obj : Record)
    (upf : Bool) (g : GSt)
    (h : (spcFromDict gen obj upf g).1.1 = none) :
    (spcFromDict gen obj upf g).1.2 ≠ [] := by
  unfold spcFromDict at h ⊢
  exact fromDictAssemble_none _ _ _ h

/-- C5 (witness): the empty record yields no instance and a non-empty error
list. -/
theorem spc_from_dict_none_has_errors_witness :
    (spcFromDict genU [] false ⟨[], 0⟩).1.1 = none ∧
    (spcFromDict genU [] false ⟨[], 0⟩).1.2 ≠ [] :=
  ⟨rfl, spc_from_dict_none_has_errors genU [] false ⟨[], 0⟩ rfl⟩

/-- C5 (counterexample): a record with an id and a point but no name yields a
fully validated instance *together with* a non-empty error list
(`"Missing attribute: name"`), contradicting the claimed exclusivity. -/
theorem spc_from_dict_instance_with_errors :
    (spcFromDict genU [("id", RVal.str "a"),
        ("Point", RVal.dict [("X", RVal.num 1), ("Y", RVal.num 2),
          ("Z", RVal.num 3)])] false ⟨[], 0⟩).1.1 =
      some ⟨⟨"a", none, none, none, none, some "XmiStructuralPointConnection"⟩,
            ⟨"uuid-", some "uuid-", none, none, none, some "XmiPoint3D", 1, 2, 3⟩,
            none⟩ ∧
    (spcFromDict genU [("id", RVal.str "a"),
        ("Point", RVal.dict [("X", RVal.num 1), ("Y", RVal.num 2),
          ("Z", RVal.num 3)])] false ⟨[], 0⟩).1.2 =
      ["Missing attribute: name"] ∧
    (["Missing attribute: name"] : List String) ≠ [] :=
  ⟨rfl, rfl, by decide⟩

/-- With an invalid `material_type`, `model_validate` fails whatever the other
fields hold. -/
theorem materialModelValidate_none (gen : ℕ → String) (processed : Record)
    (grade uw tc : Option RVal) (em gm pr : Option TupVal) (g : GSt) :
    (materialModelValidate gen processed none grade uw tc em gm pr g).1 =
      .error () := rfl

/-- C7 (amended): enumerated fields are resolved by
`from_attribute_get_enum`, a case-sensitive exact-value lookup; when the
exact lookup fails, the invalid-enum-value error naming the enum type and the
offending input is produced immediately and the record fails construction —
no case-insensitive fallback is attempted on this path (the fallback exists
only in the enum's `_missing_` hook). -/
theorem material_type_resolution_spec (gen : ℕ → String) (s : String)
    (obj : Record) (g : GSt)
    (hmt : getRaw obj "MaterialType" = some (.str s))
    (hmiss : matEnumMembers.find? (fun m => m.value == s) = none) :
    (∀ m : XmiStructuralMaterialTypeEnum,
        fromAttributeGetEnum (.str m.value) = .ok m) ∧
    fromAttributeGetEnum (.str s) =
      .error ("Invalid XmiStructuralMaterialTypeEnum value: " ++ s) ∧
    (materialFromDict gen obj g).1.1 = none ∧
    ("Invalid material_type: Invalid XmiStructuralMaterialTypeEnum value: " ++ s)
      ∈ (materialFromDict gen obj g).1.2 := by
  have hscan : getRaw (scanPairs materialAliasPairs obj) "material_type" =
      some (.str s) := by rw [getRaw_materialScan_mt]; exact hmt
  have hhk : hasKey (scanPairs materialAliasPairs obj) "material_type" = true := by
    rw [hasKey_eq_isSome, hscan]; rfl
  have hgv : getV (scanPairs materialAliasPairs obj) "material_type" = .str s := by
    simp [getV, hscan]
  have henum : fromAttributeGetEnum (.str s) =
      .error ("Invalid XmiStructuralMaterialTypeEnum value: " ++ s) := by
    simp [fromAttributeGetEnum, hmiss]
  refine ⟨fun m => by cases m <;> rfl, henum, ?_, ?_⟩
  · simp only [materialFromDict, hhk, Bool.not_true, Bool.false_eq_true,
      if_false, hgv, henum, materialModelValidate_none]
  · simp only [materialFromDict, hhk, Bool.not_true, Bool.false_eq_true,
      if_false, hgv, henum, materialModelValidate_none]
    simp only [List.mem_append, List.mem_singleton, List.mem_cons]
    have h1 : "Invalid material_type: " ++
        "Invalid XmiStructuralMaterialTypeEnum value: " =
        "Invalid material_type: Invalid XmiStructuralMaterialTypeEnum value: " := by
      decide
    rw [← String.append_assoc, h1]
    simp

/-- C7 (witness): concrete instantiation of the amended theorem at the
case-insensitively-valid but exactly-invalid input `"concrete"`. -/
theorem material_type_resolution_spec_witness :
    fromAttributeGetEnum (.str "concrete") =
      .error ("Invalid XmiStructuralMaterialTypeEnum value: " ++ "concrete") ∧
    (materialFromDict genU [("MaterialType", RVal.str "concrete")] ⟨[], 0⟩).1.1 =
      none ∧
    ("Invalid material_type: Invalid XmiStructuralMaterialTypeEnum value: "
        ++ "concrete")
      ∈ (materialFromDict genU [("MaterialType", RVal.str "concrete")]
          ⟨[], 0⟩).1.2 := by
  have h := material_type_resolution_spec genU "concrete"
    [("MaterialType", RVal.str "concrete")] ⟨[], 0⟩ rfl (by decide)
  exact ⟨h.2.1, h.2.2.1, h.2.2.2⟩

/-- C7 (counterexample): for the input `"concrete"` the case-insensitive
lookup (`_missing_`) would succeed, yet `from_dict` produces the
invalid-enum-value error and no instance — so the case-insensitive fallback
is not attempted before the error is surfaced. -/
theorem material_enum_fallback_not_attempted :
    enumMissing (.str "concrete") = some .CONCRETE ∧
    (materialFromDict genU [("MaterialType", RVal.str "concrete")] ⟨[], 0⟩).1.1 =
      none ∧
    (materialFromDict genU [("MaterialType", RVal.str "concrete")] ⟨[], 0⟩).1.2 =
      ["Invalid material_type: Invalid XmiStructuralMaterialTypeEnum value: concrete",
       "Error instantiating XmiStructuralMaterial: ValidationError"] :=
  ⟨by decide, rfl, rfl⟩

/-- C1 (counterexample): with `Entities` and `Relationships` both bound to
lists, a non-dict element makes `entity_data.get("EntityType")` raise an
`AttributeError` outside the per-record `try`, aborting the whole load. -/
theorem load_aborts_on_non_dict_record :
    (loadFromDict (entityClassMapping genU) (relClassMapping genU) MState.empty
      [("Entities", RVal.list [RVal.num 42]),
       ("Relationships", RVal.list [])]).isOk = false := rfl

/-- C1 (amended): for payloads whose `Entities`/`Relationships` are lists of
dict records with `EntityType` absent, `None` or a string, no exception
escapes a record's processing: the load completes, an unrecognized type
yields one tagged log entry, a raised constructor exception yields one tagged
log entry, a constructor failure's returned errors are appended with no
entity added, and processing always continues with the remaining records. -/
theorem load_failure_isolation
    (em : EntityMapping) (rm : RelMapping) (s : MState) (data : Record)
    (ents rels : List RVal)
    (hE : getRaw data "Entities" = some (.list ents))
    (hR : getRaw data "Relationships" = some (.list rels))
    (hgE : ∀ rv ∈ ents, goodRecord rv) (hgR : ∀ rv ∈ rels, goodRecord rv) :
    (∃ s2, loadFromDict em rm s data = .ok s2) ∧
    (∀ (s1 : MState) (idx : ℕ) (fields : Record) (t : String),
      getV fields "EntityType" = .str t → t ≠ "" → em t = none →
      stepEntity em s1 idx (.dict fields) =
        .ok (logErr s1 t idx
          ("Entity type \x27" ++ t ++ "\x27 is not recognized.")
          (.dict fields))) ∧
    (∀ (s1 : MState) (idx : ℕ) (fields : Record) (t : String)
        (ctor : EntityCtor) (m : String),
      getV fields "EntityType" = .str t → t ≠ "" → em t = some ctor →
      (ctor fields s1.gst).1 = .error m →
      stepEntity em s1 idx (.dict fields) =
        .ok (logErr { s1 with gst := (ctor fields s1.gst).2 } t idx
          ("Failed to instantiate entity: " ++ m) (.dict fields))) ∧
    (∀ (s1 : MState) (idx : ℕ) (fields : Record) (t : String)
        (ctor : EntityCtor) (errs : List String),
      getV fields "EntityType" = .str t → t ≠ "" → em t = some ctor →
      (ctor fields s1.gst).1 = .ok (none, errs) →
      stepEntity em s1 idx (.dict fields) =
        .ok { s1 with gst := (ctor fields s1.gst).2, errors := s1.errors ++ errs.map ErrEntry.exn }) ∧
    (∀ (l1 l2 : List RVal) (s1 : MState) (idx : ℕ),
      (∀ rv ∈ l1, goodRecord rv) →
      ∃ s2, loadEntities em s1 idx l1 = .ok s2 ∧
        loadEntities em s1 idx (l1 ++ l2) =
          loadEntities em s2 (idx + l1.length) l2) := by
  refine ⟨?_, ?_, ?_, ?_, ?_⟩
  · simp only [loadFromDict, rawList, hE, hR]
    obtain ⟨s1, h1, _, _, _⟩ := loadEntities_ok em _ 0 ents hgE
    rw [h1]
    obtain ⟨s2, h2⟩ := loadRels_ok rm s1 0 rels hgR
    exact ⟨s2, by simp [loadPhase2, h2]⟩
  · intro s1 idx fields t h ht hm
    have ht2 : (t == "") = false := by rw [beq_eq_false_iff_ne]; exact ht
    simp [stepEntity, h, ht2, hm]
  · intro s1 idx fields t ctor m h ht hm hr
    have ht2 : (t == "") = false := by rw [beq_eq_false_iff_ne]; exact ht
    simp [stepEntity, h, ht2, hm, hr]
  · intro s1 idx fields t ctor errs h ht hm hr
    have ht2 : (t == "") = false := by rw [beq_eq_false_iff_ne]; exact ht
    simp [stepEntity, h, ht2, hm, hr]
  · intro l1 l2 s1 idx hg
    induction l1 generalizing s1 idx with
    | nil => exact ⟨s1, rfl, by simp⟩
    | cons rv tl ih =>
        obtain ⟨sm, hsm, _, _, _⟩ :=
          stepEntity_isOk em s1 idx rv (hg rv (List.mem_cons_self rv tl))
        obtain ⟨s2, ha, hb⟩ :=
          ih sm (idx + 1) (fun r hr => hg r (List.mem_cons_of_mem rv hr))
        refine ⟨s2, by simp [loadEntities, hsm, ha], ?_⟩
        show loadEntities em s1 idx ((rv :: tl) ++ l2) =
          loadEntities em s2 (idx + (tl.length + 1)) l2
        have harith : idx + (tl.length + 1) = (idx + 1) + tl.length := by omega
        rw [harith]
        simpa [loadEntities, hsm] using hb

/-- C1 (witness): a concrete list-of-dicts payload (with an unrecognized type
and an absent type) loads to completion. -/
theorem load_failure_isolation_witness :
    ∃ s2, loadFromDict (entityClassMapping genU) (relClassMapping genU)
      MState.empty
      [("Entities", RVal.list [RVal.dict [("EntityType", RVal.str "Nope")]]),
       ("Relationships", RVal.list [RVal.dict []])] = .ok s2 :=
  (load_failure_isolation (entityClassMapping genU) (relClassMapping genU)
    MState.empty
    [("Entities", RVal.list [RVal.dict [("EntityType", RVal.str "Nope")]]),
     ("Relationships", RVal.list [RVal.dict []])]
    [RVal.dict [("EntityType", RVal.str "Nope")]] [RVal.dict []] rfl rfl
    (by
      intro rv h
      rw [List.mem_singleton] at h
      subst h
      exact ⟨_, rfl, Or.inr ⟨"Nope", rfl⟩⟩)
    (by
      intro rv h
      rw [List.mem_singleton] at h
      subst h
      exact ⟨_, rfl, Or.inl rfl⟩)).1

/-- C2: a relationship record whose `Source` or `Target` resolves to no
entity appends exactly one error-log entry ("Missing source or target entity
for relationship.") and constructs no relationship; and every relationship in
the loaded model was already present or has both endpoints in the model's
entity list. -/
theorem relationship_referential_integrity
    (em : EntityMapping) (rm : RelMapping) (s : MState) (data : Record) :
    (∀ (s1 : MState) (idx : ℕ) (fields : Record) (t : String)
        (ctor : RelCtor),
      getV fields "EntityType" = .str t → t ≠ "" → rm t = some ctor →
      (findEntity s1.entities (getV fields "Source") = none ∨
       findEntity s1.entities (getV fields "Target") = none) →
      stepRel rm s1 idx (.dict fields) =
        .ok (logErr s1 t idx
          "Missing source or target entity for relationship."
          (.dict fields))) ∧
    (∀ rel ∈ (stateOf (loadFromDict em rm s data)).relationships,
      rel ∈ s.relationships ∨
        (rel.source ∈ (stateOf (loadFromDict em rm s data)).entities ∧
         rel.target ∈ (stateOf (loadFromDict em rm s data)).entities)) := by
  constructor
  · intro s1 idx fields t ctor h ht hm hmiss
    have ht2 : (t == "") = false := by rw [beq_eq_false_iff_ne]; exact ht
    rcases hmiss with hmiss | hmiss
    · simp [stepRel, h, ht2, hm, hmiss]
    · cases hsrc : findEntity s1.entities (getV fields "Source") with
      | none => simp [stepRel, h, ht2, hm, hsrc]
      | some se => simp [stepRel, h, ht2, hm, hsrc, hmiss]
  · intro rel
    simp only [loadFromDict]
    cases hEv : rawList data "Entities" with
    | list ents =>
        intro hrel
        have hph1 := loadEntities_rels em
          { s with name := getV data "Name", xmi_version := getV data "XmiVersion", application_name := getV data "ApplicationName", application_version := getV data "ApplicationVersion" } 0 ents
        rcases loadPhase2_endpoints rm _ (rawList data "Relationships") rel
            hrel with hin | hpair
        · exact Or.inl (hph1 ▸ hin)
        · exact Or.inr hpair
    | dict d => intro hrel; exact Or.inl hrel
    | str a => intro hrel; exact Or.inl hrel
    | num a => intro hrel; exact Or.inl hrel
    | bool a => intro hrel; exact Or.inl hrel
    | vnone => intro hrel; exact Or.inl hrel

/-- C2 (witness): concrete miss — a relationship record whose `Target`
matches no entity yields exactly the missing-endpoint log entry. -/
theorem relationship_referential_integrity_witness :
    stepRel (relClassMapping genU)
      { MState.empty with entities := [.point (mkPoint "p1" 0 0 0)] } 0
      (.dict [("EntityType", RVal.str "XmiHasStructuralPointConnection"),
        ("Source", RVal.str "p1"), ("Target", RVal.str "zzz")]) =
      .ok (logErr { MState.empty with
          entities := [.point (mkPoint "p1" 0 0 0)] }
        "XmiHasStructuralPointConnection" 0
        "Missing source or target entity for relationship."
        (.dict [("EntityType", RVal.str "XmiHasStructuralPointConnection"),
          ("Source", RVal.str "p1"), ("Target", RVal.str "zzz")])) :=
  (relationship_referential_integrity (entityClassMapping genU)
    (relClassMapping genU) MState.empty []).1
    { MState.empty with entities := [.point (mkPoint "p1" 0 0 0)] } 0
    [("EntityType", RVal.str "XmiHasStructuralPointConnection"),
     ("Source", RVal.str "p1"), ("Target", RVal.str "zzz")]
    "XmiHasStructuralPointConnection" (hspcRelCtor genU) rfl (by decide) rfl
    (Or.inr rfl)

/-- C6 (counterexample): an `XmiPoint3D` record with no coordinates fails
construction; the four constructor errors are appended verbatim as bare
exception entries carrying neither the record's type tag nor its index, and
no entity is added. -/
theorem entity_errors_logged_without_tag_and_index :
    loadFromDict (entityClassMapping genU) (relClassMapping genU) MState.empty
      [("Entities", RVal.list [RVal.dict [("EntityType", RVal.str "XmiPoint3D")]]),
       ("Relationships", RVal.list [])] =
    .ok { MState.empty with
      gst := ⟨[], 1⟩,
      errors := [.exn "Missing attribute: X", .exn "Missing attribute: Y",
        .exn "Missing attribute: Z",
        .exn "Error instantiating XmiPoint3D: ValidationError"] } ∧
    (∀ e ∈ ([.exn "Missing attribute: X", .exn "Missing attribute: Y",
        .exn "Missing attribute: Z",
        .exn "Error instantiating XmiPoint3D: ValidationError"] :
        List ErrEntry),
      ∀ tag idx msg obj, e ≠ .log tag idx msg obj) := by
  refine ⟨rfl, ?_⟩
  intro e he tag idx msg obj
  simp only [List.mem_cons, List.mem_singleton] at he
  rcases he with rfl | rfl | rfl | rfl | h <;> simp_all

/-- C6 (amended): when a recognized record's constructor returns no instance
together with errors, those errors are appended to the model's error list
verbatim as bare exception entries (without the record's type tag or index)
and nothing is appended to the entity list; the tagged, indexed `ErrorLog`
records arise only from unrecognized types and caught exceptions. -/
theorem constructor_errors_appended_untagged
    (em : EntityMapping) (s : MState) (idx : ℕ) (fields : Record) (t : String)
    (ctor : EntityCtor) (errs : List String)
    (h : getV fields "EntityType" = .str t) (ht : t ≠ "")
    (hm : em t = some ctor)
    (hr : (ctor fields s.gst).1 = .ok (none, errs)) :
    stepEntity em s idx (.dict fields) =
      .ok { s with gst := (ctor fields s.gst).2, errors := s.errors ++ errs.map ErrEntry.exn } ∧
    ∀ m ∈ errs, ∀ tag i msg obj, ErrEntry.exn m ≠ .log tag i msg obj := by
  have ht2 : (t == "") = false := by rw [beq_eq_false_iff_ne]; exact ht
  refine ⟨by simp [stepEntity, h, ht2, hm, hr], ?_⟩
  intro m _ tag i msg obj hcontra
  cases hcontra

/-- C6 (witness): concrete instantiation on the coordinate-free point
record. -/
theorem constructor_errors_appended_untagged_witness :
    stepEntity (entityClassMapping genU) MState.empty 0
      (.dict [("EntityType", RVal.str "XmiPoint3D")]) =
      .ok { MState.empty with gst := ⟨[], 1⟩, errors := ["Missing attribute: X", "Missing attribute: Y", "Missing attribute: Z", "Error instantiating XmiPoint3D: ValidationError"].map ErrEntry.exn } :=
  by
  have h := constructor_errors_appended_untagged (entityClassMapping genU)
    MState.empty 0 [("EntityType", RVal.str "XmiPoint3D")] "XmiPoint3D"
    (fun r g =>
      let pf := pointFromDict genU r g
      (.ok ((pf.1.1).map Entity.point, pf.1.2), pf.2))
    ["Missing attribute: X", "Missing attribute: Y", "Missing attribute: Z",
     "Error instantiating XmiPoint3D: ValidationError"]
    rfl (by decide) rfl rfl
  simpa using h.1

/-- C3 (counterexample): a payload that loads with zero errors need not
round-trip to an equal entity list: a structural point connection's nested
point goes through the point factory on every load, so its generated `id`
changes between the first load and the reload of the dump, even though both
loads finish with zero errors and the entity ids themselves agree. -/
theorem round_trip_regenerates_nested_point_id :
    (let pay : Record :=
      [("Entities", RVal.list [RVal.dict
        [("ID", RVal.str "s1"), ("Name", RVal.str "s1"),
         ("EntityType", RVal.str "XmiStructuralPointConnection"),
         ("Point", RVal.dict
           [("X", RVal.num 1), ("Y", RVal.num 2), ("Z", RVal.num 3)])]]),
       ("Relationships", RVal.list [])]
     let S1 := stateOf (loadFromDict (entityClassMapping genU)
       (relClassMapping genU) MState.empty pay)
     let S2 := stateOf (loadFromDict (entityClassMapping genU)
       (relClassMapping genU)
       { MState.empty with gst := ⟨[], S1.gst.next⟩ } (dumpModel S1))
     S1.errors.length = 0 ∧ S2.errors.length = 0 ∧
     S1.entities.map Entity.eid = S2.entities.map Entity.eid ∧
     S1.entities.map (fun e => match e with | .spc c => c.point.id | _ => "") ≠
       S2.entities.map
         (fun e => match e with | .spc c => c.point.id | _ => "")) := by
  decide

/-- C3 (amended): for a model whose entities are canonical points (truthy id,
entity-type tag `"XmiPoint3D"`) and whose relationship list is empty, loading
the dumped wire payload appends exactly those entities — equal element by
element on id and on every field value — with no new errors, no relationships
and no fresh uuid draw; the general payload round-trip fails only where a
factory-built nested point regenerates its `id` (see the counterexample). -/
theorem round_trip_point_entities (gen : ℕ → String) (rm : RelMapping)
    (M s : MState)
    (hents : ∀ e ∈ M.entities, ∃ p : XmiPoint3D,
      e = .point p ∧ p.id ≠ "" ∧ p.entity_type = some "XmiPoint3D")
    (hrels : M.relationships = []) :
    ∃ s2, loadFromDict (entityClassMapping gen) rm s (dumpModel M) = .ok s2 ∧
      s2.entities = s.entities ++ M.entities ∧
      s2.relationships = s.relationships ∧
      s2.errors = s.errors ∧ s2.gst.next = s.gst.next := by
  obtain ⟨s1, h1, hent, hrel, herr, hnext⟩ :=
    loadPoints_roundtrip gen M.entities
      { s with name := getV (dumpModel M) "Name", xmi_version := getV (dumpModel M) "XmiVersion", application_name := getV (dumpModel M) "ApplicationName", application_version := getV (dumpModel M) "ApplicationVersion" }
      0 hents
  have hE : rawList (dumpModel M) "Entities" =
      .list (M.entities.map dumpEntity) := by
    simp [rawList, dumpModel, getRaw, List.find?]
  have hR : rawList (dumpModel M) "Relationships" = .list [] := by
    simp [rawList, dumpModel, getRaw, List.find?, hrels]
  have hload : loadFromDict (entityClassMapping gen) rm s (dumpModel M) =
      .ok s1 := by
    simp only [loadFromDict, hE, hR]
    rw [h1]
    rfl
  exact ⟨s1, hload, hent, hrel, herr, hnext⟩

/-- C3 (witness): reloading the dump of a one-point model reproduces exactly
that point. -/
theorem round_trip_point_entities_witness :
    ∃ s2, loadFromDict (entityClassMapping genU) (relClassMapping genU)
        MState.empty
        (dumpModel ⟨[.point (mkPoint "p1" 1 2 3)], [], [], ⟨[], 0⟩, .vnone, .vnone, .vnone, .vnone⟩) = .ok s2 ∧
      s2.entities =
        MState.empty.entities ++ [.point (mkPoint "p1" 1 2 3)] ∧
      s2.relationships = MState.empty.relationships ∧
      s2.errors = MState.empty.errors ∧
      s2.gst.next = MState.empty.gst.next :=
  round_trip_point_entities genU (relClassMapping genU)
    ⟨[.point (mkPoint "p1" 1 2 3)], [], [], ⟨[], 0⟩, .vnone, .vnone, .vnone, .vnone⟩
    MState.empty
    (by
      intro e he
      have he2 : e ∈ [Entity.point (mkPoint "p1" 1 2 3)] := he
      rw [List.mem_singleton] at he2
      subst he2
      exact ⟨mkPoint "p1" 1 2 3, rfl, by decide, rfl⟩)
    rfl

/-- C4: on one model, `create_point_3d(0,0,0, tolerance=1e-6)` followed by
`create_point_3d(0,0,5e-7, tolerance=1e-6)` returns the identical cached
instance, while `create_point_3d(0,0,0, tolerance=1e-9)` then returns a
distinct instance, because the cache key is the triple of tolerance-quantized
integer coordinates together with the tolerance itself.  Identity of the
reused instance is value equality (including the generated `id`); the third
point is distinct because it draws a fresh `id` from the generator. -/
theorem create_point_3d_dedup_scenario :
    (let r1 := createPoint3D genU 0 0 0 (some 1e-6) ⟨[], 0⟩
     let r2 := createPoint3D genU 0 0 (5e-7) (some 1e-6) r1.2
     let r3 := createPoint3D genU 0 0 0 (some 1e-9) r2.2
     r2.1 = r1.1 ∧ r3.1 ≠ r1.1 ∧
     pointCacheKey 0 0 (5e-7) 1e-6 = pointCacheKey 0 0 0 1e-6 ∧
     pointCacheKey 0 0 0 1e-9 ≠ pointCacheKey 0 0 0 1e-6) := by decide

/-- C9 (counterexample): with no caller-supplied epsilon the comparison is not
exact — the default tolerance is `1e-6`, so two points whose `x` coordinates
differ by `1e-7` still compare equal. -/
theorem equals_within_tolerance_default_not_exact :
    equalsWithinTolerance (mkPoint "a" 0 0 0) (mkPoint "a" (1e-7) 0 0) = true ∧
    (mkPoint "a" 0 0 0).x ≠ (mkPoint "a" (1e-7) 0 0).x := by decide

/-- C9 (amended): `equals_within_tolerance` holds exactly when each of the
three coordinates differs by at most the caller-supplied epsilon; when the
caller supplies no epsilon the default tolerance is `1e-6` (not exact
zero-tolerance equality). -/
theorem equals_within_tolerance_spec (p q : XmiPoint3D) (tol : ℚ) :
    (equalsWithinTolerance p q tol = true ↔
      |p.x - q.x| ≤ tol ∧ |p.y - q.y| ≤ tol ∧ |p.z - q.z| ≤ tol) ∧
    equalsWithinTolerance p q = equalsWithinTolerance p q (1e-6) := by
  refine ⟨?_, rfl⟩
  simp [equalsWithinTolerance]

/-- Cache miss: a fresh point is constructed and stored. -/
theorem createPoint3D_miss (gen : ℕ → String) (x y z tol : ℚ) (g : GSt)
    (hf : cacheFind g.cache (pointCacheKey x y z tol) = none) :
    createPoint3D gen x y z (some tol) g =
      (mkPoint (gen g.next) x y z,
       ⟨cacheSet g.cache (pointCacheKey x y z tol) (mkPoint (gen g.next) x y z),
        g.next + 1⟩) := by
  simp [createPoint3D, hf, drawUuid]

/-- Cache hit within tolerance: the cached point is returned, state unchanged. -/
theorem createPoint3D_hit (gen : ℕ → String) (x y z tol : ℚ) (g : GSt)
    (cached : XmiPoint3D)
    (hf : cacheFind g.cache (pointCacheKey x y z tol) = some cached)
    (hc : |cached.x - x| ≤ tol ∧ |cached.y - y| ≤ tol ∧ |cached.z - z| ≤ tol) :
    createPoint3D gen x y z (some tol) g = (cached, g) := by
  simp [createPoint3D, hf, hc]

/-- Cache hit outside tolerance: a fresh point overwrites the bucket. -/
theorem createPoint3D_stale (gen : ℕ → String) (x y z tol : ℚ) (g : GSt)
    (cached : XmiPoint3D)
    (hf : cacheFind g.cache (pointCacheKey x y z tol) = some cached)
    (hc : ¬(|cached.x - x| ≤ tol ∧ |cached.y - y| ≤ tol ∧ |cached.z - z| ≤ tol)) :
    createPoint3D gen x y z (some tol) g =
      (mkPoint (gen g.next) x y z,
       ⟨cacheSet g.cache (pointCacheKey x y z tol) (mkPoint (gen g.next) x y z),
        g.next + 1⟩) := by
  simp [createPoint3D, hf, hc, drawUuid]

/-- C10: for positive tolerance, the point returned by `create_point_3d` has
each coordinate within tolerance of the request; and when the quantized
bucket already holds a point that is not within tolerance, the freshly
constructed point overwrites the bucket, so the previously cached point is no
longer returned for that key. -/
theorem create_point_3d_within_tolerance_and_overwrite (gen : ℕ → String)
    (x y z tol : ℚ) (g : GSt) (htol : 0 < tol) :
    (|(createPoint3D gen x y z (some tol) g).1.x - x| ≤ tol ∧
     |(createPoint3D gen x y z (some tol) g).1.y - y| ≤ tol ∧
     |(createPoint3D gen x y z (some tol) g).1.z - z| ≤ tol) ∧
    (∀ p, cacheFind g.cache (pointCacheKey x y z tol) = some p →
      ¬(|p.x - x| ≤ tol ∧ |p.y - y| ≤ tol ∧ |p.z - z| ≤ tol) →
      (createPoint3D gen x y z (some tol) g).1 = mkPoint (gen g.next) x y z ∧
      (createPoint3D gen x y z (some tol) g).1 ≠ p ∧
      cacheFind (createPoint3D gen x y z (some tol) g).2.cache
          (pointCacheKey x y z tol) =
        some (createPoint3D gen x y z (some tol) g).1) := by
  have h0 : (0 : ℚ) ≤ tol := le_of_lt htol
  cases hf : cacheFind g.cache (pointCacheKey x y z tol) with
  | none =>
      rw [createPoint3D_miss gen x y z tol g hf]
      refine ⟨by simp [mkPoint, h0], ?_⟩
      intro p hp
      exact absurd hp (by simp)
  | some cached =>
      by_cases hc : |cached.x - x| ≤ tol ∧ |cached.y - y| ≤ tol ∧
          |cached.z - z| ≤ tol
      · rw [createPoint3D_hit gen x y z tol g cached hf hc]
        refine ⟨hc, ?_⟩
        intro p hp hnp
        cases hp
        exact absurd hc hnp
      · rw [createPoint3D_stale gen x y z tol g cached hf hc]
        refine ⟨by simp [mkPoint, h0], ?_⟩
        intro p hp hnp
        injection hp with hpe
        subst hpe
        refine ⟨rfl, ?_, by simp [cacheFind_cacheSet_self]⟩
        intro heq
        apply hnp
        have hxp : cached.x = x := by
          simpa [mkPoint] using congrArg XmiPoint3D.x heq.symm
        have hyp : cached.y = y := by
          simpa [mkPoint] using congrArg XmiPoint3D.y heq.symm
        have hzp : cached.z = z := by
          simpa [mkPoint] using congrArg XmiPoint3D.z heq.symm
        simp [hxp, hyp, hzp, h0]

/-- C10 (witness): concrete run with tolerance `1` and a stale bucket entry at
distance `5` — the fresh point replaces it. -/
theorem create_point_3d_within_tolerance_and_overwrite_witness :
    (0 : ℚ) < 1 ∧
    ((|(createPoint3D genU 0 0 0 (some 1) ⟨[((0, 0, 0, 1), mkPoint "w" 5 5 5)], 0⟩).1.x - 0| ≤ 1 ∧
      |(createPoint3D genU 0 0 0 (some 1) ⟨[((0, 0, 0, 1), mkPoint "w" 5 5 5)], 0⟩).1.y - 0| ≤ 1 ∧
      |(createPoint3D genU 0 0 0 (some 1) ⟨[((0, 0, 0, 1), mkPoint "w" 5 5 5)], 0⟩).1.z - 0| ≤ 1) ∧
     (∀ p, cacheFind (GSt.mk [((0, 0, 0, 1), mkPoint "w" 5 5 5)] 0).cache (pointCacheKey 0 0 0 1) = some p →
      ¬(|p.x - 0| ≤ 1 ∧ |p.y - 0| ≤ 1 ∧ |p.z - 0| ≤ 1) →
      (createPoint3D genU 0 0 0 (some 1) ⟨[((0, 0, 0, 1), mkPoint "w" 5 5 5)], 0⟩).1 = mkPoint (genU 0) 0 0 0 ∧
      (createPoint3D genU 0 0 0 (some 1) ⟨[((0, 0, 0, 1), mkPoint "w" 5 5 5)], 0⟩).1 ≠ p ∧
      cacheFind (createPoint3D genU 0 0 0 (some 1) ⟨[((0, 0, 0, 1), mkPoint "w" 5 5 5)], 0⟩).2.cache
          (pointCacheKey 0 0 0 1) =
        some (createPoint3D genU 0 0 0 (some 1) ⟨[((0, 0, 0, 1), mkPoint "w" 5 5 5)], 0⟩).1)) :=
  ⟨by norm_num,
   create_point_3d_within_tolerance_and_overwrite genU 0 0 0 1
     ⟨[((0, 0, 0, 1), mkPoint "w" 5 5 5)], 0⟩ (by norm_num)⟩

end XmiSpec
